import Mathlib

-- Batteries marks the `Rat` field operations `@[irreducible]`; concrete
-- evaluation by `decide` needs them reducible again (the kernel itself
-- never honours the attribute, so proofs are unaffected).
set_option allowUnsafeReducibility true
attribute [local semireducible] Rat.add Rat.mul Rat.inv Rat.sub

/-!
Shallow embedding of the botcasino13 ICT trading bot (JavaScript) in Lean 4.

Conventions of the embedding:
* JS numbers are modelled as exact rationals `ℚ` (prices, percentages,
  scores); timestamps are naturals (milliseconds since the Unix epoch).
* JS arrays become `List`s, iterated in source order.
* JS `x / 0` yields `Infinity`/`NaN`; in `ℚ` it yields `0`.  No claim in
  this development hinges on a division by zero.
* JS `Array.prototype.sort` (stable since ES2019) with comparator
  `(a, b) => b.k - a.k` is modelled by the stable insertion sort
  `sortDesc` (descending by key, ties keep input order).
* Wall-clock reads (`new Date()`) are modelled by an explicit `now`
  (milliseconds) parameter, so every function is a pure function of its
  inputs — exactly the determinism discipline the spec requires.
* Functions that can throw in JS (out-of-bounds `.open` access on an empty
  array, explicit `throw new Error`) are modelled with `Except String`.
-/

/-- JS `Math.round`: rounds half toward positive infinity. -/
def jsRound (q : ℚ) : ℤ := Int.floor (q + 1/2)

/-- JS `x || d` for numeric configuration reads: `0` (and `undefined`,
modelled by a separate `Option` where needed) falls back to the default. -/
def jsOrQ (x : ℚ) (d : ℚ) : ℚ := if x = 0 then d else x

/-- JS `x || d` on an optional numeric field (`undefined` and `0` are falsy). -/
def jsOrQ? (x : Option ℚ) (d : ℚ) : ℚ :=
  match x with
  | none => d
  | some v => if v = 0 then d else v

/-- JS `x || d` on an optional natural-number field. -/
def jsOrN? (x : Option ℕ) (d : ℕ) : ℕ :=
  match x with
  | none => d
  | some v => if v = 0 then d else v

/-- `new Date(ms).getUTCHours()` for non-negative epoch milliseconds. -/
def utcHour (ms : ℕ) : ℕ := ms / 3600000 % 24

/-- UTC day number (days since the epoch): identifies the ISO date string
`new Date(ms).toISOString().split('T')[0]`. -/
def utcDayNumber (ms : ℕ) : ℕ := ms / 86400000

/-- `new Date(ms).getUTCDay()`: 0 = Sunday … 6 = Saturday
(1970-01-01 was a Thursday, day-of-week 4). -/
def utcDayOfWeek (ms : ℕ) : ℕ := (utcDayNumber ms + 4) % 7

/-- Minutes since UTC midnight (`getUTCHours() * 60 + getUTCMinutes()`). -/
def utcTotalMinutes (ms : ℕ) : ℕ := ms / 60000 % 1440

/-- Sum of a list of rationals (JS `reduce((a, b) => a + b, 0)`). -/
def qsum (l : List ℚ) : ℚ := l.foldl (· + ·) 0

/-- JS `Math.max(...xs)` over a non-empty list; `-Infinity` on the empty
list is modelled by the default `0` (callers in this development only hit
the empty case where the JS result is immediately discarded or compared
in a way that makes both semantics agree, as noted at each use site). -/
def qmax (l : List ℚ) : ℚ :=
  match l with
  | [] => 0
  | x :: xs => xs.foldl max x

/-- JS `Math.min(...xs)`, same conventions as `qmax`. -/
def qmin (l : List ℚ) : ℚ :=
  match l with
  | [] => 0
  | x :: xs => xs.foldl min x

/-- One OHLCV price candle.  `opn` is the candle's open price (`open` is a
Lean keyword).  `volume` is carried for fidelity but never read by the
embedded detectors. -/
structure Candle where
  timestamp : ℕ
  opn : ℚ
  high : ℚ
  low : ℚ
  close : ℚ
  volume : ℚ
deriving Repr, DecidableEq

/-- Directional bias / signal direction (source strings `'BULLISH'`,
`'BEARISH'`, `'NEUTRAL'`). -/
inductive Dir where
  | bullish
  | bearish
  | neutral
deriving Repr, DecidableEq

/-- Render a `Dir` the way the source interpolates it into strings. -/
def Dir.render : Dir → String
  | .bullish => "BULLISH"
  | .bearish => "BEARISH"
  | .neutral => "NEUTRAL"

/-- The integer range `[a, b)` as a list, in ascending order: the index
sequence of a JS `for (let i = a; i < b; i++)` loop. -/
def loopRange (a b : ℕ) : List ℕ := List.range' a (b - a)

theorem mem_loopRange {a b i : ℕ} (h : i ∈ loopRange a b) : a ≤ i ∧ i < b := by
  unfold loopRange at h
  rcases List.mem_range'.1 h with ⟨k, hk, rfl⟩
  omega

theorem mem_loopRange_of {a b i : ℕ} (h1 : a ≤ i) (h2 : i < b) :
    i ∈ loopRange a b := by
  unfold loopRange
  exact List.mem_range'.2 ⟨i - a, by omega, by omega⟩

instance : Inhabited Candle := ⟨⟨0, 0, 0, 0, 0, 0⟩⟩

deriving instance DecidableEq for Except

/-- Total JS array indexing `l[i]`; every use site in this development is
index-in-bounds (the JS loops bound their indices), so the default value is
never observed. -/
def cget (l : List Candle) (i : ℕ) : Candle := l.getD i default

/-- JS `l[l.length - 1]` on a possibly-empty array, as an `Option`. -/
def lastCandle? (l : List Candle) : Option Candle := l.getLast?

/-- `config/settings.js` — the fields of the global `CONFIG` object read by
the embedded functions, flattened into one explicit configuration value
(the spec's "configuration object enumerating all thresholds"). -/
structure Config where
  /-- `CONFIG.ICT.FVG.MIN_SIZE_PERCENT` -/
  fvgMinSizePercent : ℚ
  /-- `CONFIG.ICT.FVG.MAX_SIZE_PERCENT` -/
  fvgMaxSizePercent : ℚ
  /-- `CONFIG.ICT.FVG.REQUIRE_DISPLACEMENT` -/
  fvgRequireDisplacement : Bool
  /-- `CONFIG.ICT.FVG.DISPLACEMENT_MIN_SIZE` -/
  fvgDisplacementMinSize : ℚ
  /-- `CONFIG.ICT.LIQUIDITY.EQUAL_HIGHS_LOWS_TOLERANCE` (a percentage) -/
  liqEqualTolerance : ℚ
  /-- `CONFIG.ICT.LIQUIDITY.SWEEP_CONFIRMATION_CANDLES` -/
  liqSweepConfirmationCandles : ℕ
  /-- `CONFIG.ICT.LIQUIDITY.MIN_LIQUIDITY_POOL_TOUCHES` -/
  liqMinPoolTouches : ℕ
  /-- `CONFIG.ICT?.LIQUIDITY?.SWEEP_REQUIRED_STRICT || false` -/
  liqSweepRequiredStrict : Bool
  /-- `CONFIG.ICT.STRUCTURE.SWING_LOOKBACK` -/
  swingLookback : ℕ
  /-- `CONFIG.ICT.STRUCTURE.SWING_LOOKBACK_HTF` (read as `... || 3`) -/
  swingLookbackHTF : ℕ
  /-- `CONFIG.ICT.PREMIUM_DISCOUNT.PREMIUM_THRESHOLD` -/
  pdPremiumThreshold : ℚ
  /-- `CONFIG.ICT.PREMIUM_DISCOUNT.DISCOUNT_THRESHOLD` -/
  pdDiscountThreshold : ℚ
  /-- `CONFIG.ICT.PREMIUM_DISCOUNT.EQUILIBRIUM_BUFFER` -/
  pdEquilibriumBuffer : ℚ
  /-- `CONFIG.ICT.SMT.CORRELATION_THRESHOLD` -/
  smtCorrelationThreshold : ℚ
  /-- `CONFIG.ICT.SMT.MIN_DIVERGENCE_PERCENT` -/
  smtMinDivergencePercent : ℚ
  /-- `CONFIG.ICT.SMT.DIVERGENCE_LOOKBACK` -/
  smtDivergenceLookback : ℕ
  /-- `CONFIG.ICT?.SMT?.REQUIRED || false` -/
  smtRequired : Bool
  /-- `CONFIG.ICT.MMXM.MIN_MANIPULATION_PERCENT` -/
  mmxmMinManipulationPercent : ℚ
  /-- `CONFIG.HTF_BIAS.MIN_ALIGNED_COUNT` -/
  htfMinAlignedCount : ℕ
  /-- `CONFIG.HTF_BIAS?.ALLOW_NEUTRAL_BIAS` (truthiness) -/
  htfAllowNeutralBias : Bool
  /-- `CONFIG.CONFLUENCE.MIN_SCORE_TO_TRADE` -/
  conflMinScoreToTrade : ℚ
  /-- `CONFIG.CONFLUENCE.A_PLUS_SCORE` -/
  conflAPlusScore : ℚ
  /-- `CONFIG.CONFLUENCE.FACTORS.HTF_BIAS_ALIGNED` -/
  wHtfBiasAligned : ℚ
  /-- `CONFIG.CONFLUENCE.FACTORS.KILLZONE_ACTIVE` -/
  wKillzoneActive : ℚ
  /-- `CONFIG.CONFLUENCE.FACTORS.LIQUIDITY_SWEPT` -/
  wLiquiditySwept : ℚ
  /-- `CONFIG.CONFLUENCE.FACTORS.FVG_PRESENT` -/
  wFvgPresent : ℚ
  /-- `CONFIG.CONFLUENCE.FACTORS.ORDER_BLOCK_PRESENT` (never added to a
  score by the engine; participates only in `maxScore`) -/
  wOrderBlockPresent : ℚ
  /-- `CONFIG.CONFLUENCE.FACTORS.SMT_DIVERGENCE` -/
  wSmtDivergence : ℚ
  /-- `CONFIG.CONFLUENCE.FACTORS.PREMIUM_DISCOUNT_ZONE` -/
  wPremiumDiscountZone : ℚ
  /-- `CONFIG.CONFLUENCE.FACTORS.NEWS_CLEAR` -/
  wNewsClear : ℚ
  /-- `CONFIG.CONFLUENCE.FACTORS.NEWS_SENTIMENT_ALIGNED` (optional field,
  read as `... || 1.5`) -/
  wNewsSentimentAligned : Option ℚ
  /-- `CONFIG.CONFLUENCE.FACTORS.ETF_FLOWS_ALIGNED` (optional, `|| 2.0`) -/
  wEtfFlowsAligned : Option ℚ
  /-- `CONFIG.CONFLUENCE.FACTORS.ECONOMIC_BIAS_ALIGNED` (optional, `|| 1.0`) -/
  wEconomicBiasAligned : Option ℚ
  /-- `CONFIG.CHALLENGE.MAX_TRADES_PER_DAY` -/
  maxTradesPerDay : ℕ
  /-- `CONFIG.CHALLENGE.ALLOW_SECOND_TRADE_IF_A_PLUS` -/
  allowSecondTradeIfAPlus : Bool
  /-- `CONFIG.ENTRY_MODELS.MMXM.ENABLED` -/
  emMmxmEnabled : Bool
  /-- `CONFIG.ENTRY_MODELS.MMXM.WIN_RATE_ESTIMATE` -/
  emMmxmWinRate : ℚ
  /-- `CONFIG.ENTRY_MODELS.FVG_DISPLACEMENT.ENABLED` -/
  emFvgEnabled : Bool
  /-- `CONFIG.ENTRY_MODELS.FVG_DISPLACEMENT.WIN_RATE_ESTIMATE` -/
  emFvgWinRate : ℚ
  /-- `CONFIG.ENTRY_MODELS.JUDAS_SWING.ENABLED` -/
  emJudasEnabled : Bool
  /-- `CONFIG.ENTRY_MODELS.JUDAS_SWING.WIN_RATE_ESTIMATE` -/
  emJudasWinRate : ℚ
  /-- `CONFIG.KILLZONES.<name>.ENABLED` for ASIA, LONDON, NEW_YORK_AM,
  NEW_YORK_PM; start/end as minutes since UTC midnight (the source stores
  `"HH:MM"` strings and converts with `parseTime`). -/
  kzAsiaEnabled : Bool
  kzAsiaStart : ℕ
  kzAsiaEnd : ℕ
  kzAsiaDescription : String
  kzLondonEnabled : Bool
  kzLondonStart : ℕ
  kzLondonEnd : ℕ
  kzLondonDescription : String
  kzNyAmEnabled : Bool
  kzNyAmStart : ℕ
  kzNyAmEnd : ℕ
  kzNyAmDescription : String
  kzNyPmEnabled : Bool
  kzNyPmStart : ℕ
  kzNyPmEnd : ℕ
  kzNyPmDescription : String
  /-- `CONFIG.KILLZONES.SILVER_BULLET`: named windows, minutes since UTC
  midnight. -/
  kzSilverBullet : List (String × ℕ × ℕ)
  /-- `CONFIG.FILTERS.VOLATILITY.MIN_ATR_PERCENT` -/
  volMinAtrPercent : ℚ
  /-- `CONFIG.DATA_SOURCES?.NEWS_SENTIMENT?.ENABLED` -/
  dsNewsSentimentEnabled : Bool
  /-- `CONFIG.DATA_SOURCES?.ETF_FLOWS?.ENABLED` -/
  dsEtfFlowsEnabled : Bool
  /-- `CONFIG.DATA_SOURCES?.ETF_FLOWS?.BLOCK_ON_STRONG_DISAGREEMENT` -/
  dsEtfBlockOnStrongDisagreement : Bool
  /-- `CONFIG.DATA_SOURCES?.ECONOMIC_CALENDAR?.ENABLED` -/
  dsEconomicEnabled : Bool

/-! ### `src/ict/marketStructure.js` — online (no-look-ahead) variant

The `MarketStructure` class of the bias-free generation of the ICT
package: `identifySwings` only returns swings confirmed by `lookback`
later completed candles. -/

/-- A confirmed swing point (`{index, price, timestamp, candle, confirmedAt}`). -/
structure SwingPoint where
  index : ℕ
  price : ℚ
  timestamp : ℕ
  candle : Candle
  confirmedAt : ℕ
deriving Repr, DecidableEq

/-- `MarketStructure.identifySwings` (online variant).  Returns
`(swingHighs, swingLows)`. -/
def identifySwings (candles : List Candle) (lookback : ℕ)
    (onlineMode : Bool) : List SwingPoint × List SwingPoint :=
  let maxIndex : ℕ :=
    if onlineMode then candles.length - lookback - 1
    else candles.length - lookback
  let isHigh : ℕ → Bool := fun i =>
    (loopRange 1 (lookback + 1)).all (fun j =>
      ¬ ((cget candles (i - j)).high ≥ (cget candles i).high)) &&
    (loopRange 1 (lookback + 1)).all (fun j =>
      if i + j < candles.length
      then ¬ ((cget candles (i + j)).high ≥ (cget candles i).high)
      else true)
  let isLow : ℕ → Bool := fun i =>
    (loopRange 1 (lookback + 1)).all (fun j =>
      ¬ ((cget candles (i - j)).low ≤ (cget candles i).low)) &&
    (loopRange 1 (lookback + 1)).all (fun j =>
      if i + j < candles.length
      then ¬ ((cget candles (i + j)).low ≤ (cget candles i).low)
      else true)
  let mk : ℕ → (Candle → ℚ) → SwingPoint := fun i price =>
    { index := i
      price := price (cget candles i)
      timestamp := (cget candles i).timestamp
      candle := cget candles i
      confirmedAt := (cget candles (min (i + lookback) (candles.length - 1))).timestamp }
  ((loopRange lookback maxIndex).filterMap
      (fun i => if isHigh i then some (mk i Candle.high) else none),
   (loopRange lookback maxIndex).filterMap
      (fun i => if isLow i then some (mk i Candle.low) else none))

/-- Result record of `determineBias` / `determineBiasWithLookback`. -/
structure BiasResult where
  bias : Dir
  confidence : ℚ
  reason : String
  lastSwingHigh : Option SwingPoint
  lastSwingLow : Option SwingPoint
deriving Repr, DecidableEq

/-- Count (higher, lower) transitions over consecutive swing prices:
the `for (let i = 1; ...)` counting loops of `determineBias`. -/
def countTransitions (prices : List ℚ) : ℕ × ℕ :=
  let pairs := prices.zip prices.tail
  (pairs.countP (fun p => p.2 > p.1), pairs.countP (fun p => ¬ (p.2 > p.1)))

/-- `MarketStructure.determineBias` (online variant). -/
def determineBias (cfg : Config) (candles : List Candle) : BiasResult :=
  let s := identifySwings candles cfg.swingLookback true
  let swingHighs := s.1
  let swingLows := s.2
  if swingHighs.length < 2 ∨ swingLows.length < 2 then
    { bias := .neutral, confidence := 0, reason := "Insufficient swings"
      lastSwingHigh := none, lastSwingLow := none }
  else
    let recentHighs := swingHighs.drop (swingHighs.length - 4)
    let recentLows := swingLows.drop (swingLows.length - 4)
    let th := countTransitions (recentHighs.map SwingPoint.price)
    let tl := countTransitions (recentLows.map SwingPoint.price)
    let higherHighs := th.1
    let lowerHighs := th.2
    let higherLows := tl.1
    let lowerLows := tl.2
    let bullishScore := higherHighs + higherLows
    let bearishScore := lowerHighs + lowerLows
    if bullishScore > bearishScore + 1 then
      { bias := .bullish
        confidence := (bullishScore : ℚ) / ((bullishScore : ℚ) + bearishScore)
        reason := "HH: " ++ toString higherHighs ++ ", HL: " ++ toString higherLows
        lastSwingHigh := recentHighs.getLast?, lastSwingLow := recentLows.getLast? }
    else if bearishScore > bullishScore + 1 then
      { bias := .bearish
        confidence := (bearishScore : ℚ) / ((bullishScore : ℚ) + bearishScore)
        reason := "LH: " ++ toString lowerHighs ++ ", LL: " ++ toString lowerLows
        lastSwingHigh := recentHighs.getLast?, lastSwingLow := recentLows.getLast? }
    else
      { bias := .neutral, confidence := 1/2, reason := "No clear structure"
        lastSwingHigh := recentHighs.getLast?, lastSwingLow := recentLows.getLast? }

/-- `MarketStructure.determineBiasWithLookback` (strict `>` comparisons and
a `+ 0.01` guard in the confidence denominator). -/
def determineBiasWithLookback (candles : List Candle) (lookback : ℕ) : BiasResult :=
  let s := identifySwings candles lookback true
  let swingHighs := s.1
  let swingLows := s.2
  if swingHighs.length < 2 ∨ swingLows.length < 2 then
    { bias := .neutral, confidence := 0
      reason := "Insufficient swings (H:" ++ toString swingHighs.length ++
        ", L:" ++ toString swingLows.length ++ ")"
      lastSwingHigh := none, lastSwingLow := none }
  else
    let recentHighs := swingHighs.drop (swingHighs.length - 4)
    let recentLows := swingLows.drop (swingLows.length - 4)
    let th := countTransitions (recentHighs.map SwingPoint.price)
    let tl := countTransitions (recentLows.map SwingPoint.price)
    let higherHighs := th.1
    let lowerHighs := th.2
    let higherLows := tl.1
    let lowerLows := tl.2
    let bullishScore := higherHighs + higherLows
    let bearishScore := lowerHighs + lowerLows
    if bullishScore > bearishScore then
      { bias := .bullish
        confidence := (bullishScore : ℚ) / ((bullishScore : ℚ) + bearishScore + 1/100)
        reason := "HH:" ++ toString higherHighs ++ " HL:" ++ toString higherLows
        lastSwingHigh := recentHighs.getLast?, lastSwingLow := recentLows.getLast? }
    else if bearishScore > bullishScore then
      { bias := .bearish
        confidence := (bearishScore : ℚ) / ((bullishScore : ℚ) + bearishScore + 1/100)
        reason := "LH:" ++ toString lowerHighs ++ " LL:" ++ toString lowerLows
        lastSwingHigh := recentHighs.getLast?, lastSwingLow := recentLows.getLast? }
    else
      { bias := .neutral, confidence := 1/2, reason := "No clear structure"
        lastSwingHigh := recentHighs.getLast?, lastSwingLow := recentLows.getLast? }

/-- Result record of `getHTFBiasAlignment`. -/
structure HTFBiasResult where
  biases : List (String × BiasResult)
  overallBias : Dir
  aligned : Bool
  alignment : ℚ
  bullishCount : ℕ
  bearishCount : ℕ
deriving Repr, DecidableEq

/-- `MarketStructure.getHTFBiasAlignment` (online variant): per-timeframe
bias with a smaller lookback on the higher timeframes, combined by
majority vote. -/
def getHTFBiasAlignment (cfg : Config)
    (timeframeData : List (String × List Candle)) : HTFBiasResult :=
  let htfTimeframes : List String := ["4h", "1d", "1w"]
  let htfLookback := jsOrN? (some cfg.swingLookbackHTF) 3
  let biases := timeframeData.map (fun tfc =>
    let lookback := if htfTimeframes.contains tfc.1 then htfLookback
      else cfg.swingLookback
    (tfc.1, determineBiasWithLookback tfc.2 lookback))
  let bullishCount := biases.countP (fun b => b.2.bias = .bullish)
  let bearishCount := biases.countP (fun b => b.2.bias = .bearish)
  let totalTFs := timeframeData.length
  { biases := biases
    overallBias :=
      if bullishCount > bearishCount then .bullish
      else if bearishCount > bullishCount then .bearish
      else .neutral
    aligned := max bullishCount bearishCount ≥ cfg.htfMinAlignedCount
    alignment := (max bullishCount bearishCount : ℚ) / (totalTFs : ℚ)
    bullishCount := bullishCount
    bearishCount := bearishCount }

/-- Stable insertion step for a descending sort by `key`: the new element
goes after every already-placed element whose key is `≥` its own. -/
def insDesc {α : Type} (key : α → ℚ) (x : α) : List α → List α
  | [] => [x]
  | y :: ys => if key x > key y then x :: y :: ys else y :: insDesc key x ys

/-- Stable descending sort by `key`: the model of the JS stable
`arr.sort((a, b) => b.key - a.key)`. -/
def sortDesc {α : Type} (key : α → ℚ) (l : List α) : List α :=
  l.foldl (fun acc x => insDesc key x acc) []

/-- JS `l.slice(-n, -1)`: the last `n - 1` elements with the final element
removed (all completed candles of a trailing window). -/
def sliceNegToLast {α : Type} (l : List α) (n : ℕ) : List α :=
  l.dropLast.drop (l.length - n)

/-- JS `l.slice(0, -n)`: drop the last `n` elements. -/
def sliceDropLastN {α : Type} (l : List α) (n : ℕ) : List α :=
  l.take (l.length - n)

/-- JS `l.slice(-n)`: the last `n` elements. -/
def sliceLastN {α : Type} (l : List α) (n : ℕ) : List α :=
  l.drop (l.length - n)

/-- Price zone labels of `getPremiumDiscountZone` (source strings;
`zone.includes('DISCOUNT')` matches both `DISCOUNT` and `DISCOUNT_EDGE`,
and likewise for `PREMIUM`). -/
inductive Zone where
  | NEUTRAL
  | PREMIUM
  | DISCOUNT
  | EQUILIBRIUM
  | PREMIUM_EDGE
  | DISCOUNT_EDGE
deriving Repr, DecidableEq

/-- JS `zone.includes('DISCOUNT')`. -/
def Zone.includesDiscount : Zone → Bool
  | .DISCOUNT | .DISCOUNT_EDGE => true
  | _ => false

/-- JS `zone.includes('PREMIUM')`. -/
def Zone.includesPremium : Zone → Bool
  | .PREMIUM | .PREMIUM_EDGE => true
  | _ => false

/-- Result record of `getPremiumDiscountZone`. -/
structure PDZoneResult where
  zone : Zone
  position : ℚ
  high : ℚ
  low : ℚ
  equilibrium : ℚ
  currentPrice : ℚ
  fibLevels : List (String × ℚ)
deriving Repr, DecidableEq

/-- `MarketStructure.getPremiumDiscountZone` (bias-free variant): the
range is computed from completed candles only and the in-progress last
candle contributes only its open. -/
def getPremiumDiscountZone (cfg : Config) (candles : List Candle)
    (lookback : ℕ := 50) : PDZoneResult :=
  let completedCandles := sliceNegToLast candles (lookback + 1)
  if completedCandles.length < 10 then
    { zone := .NEUTRAL, position := 1/2, high := 0, low := 0, equilibrium := 0
      currentPrice := jsOrQ? ((lastCandle? candles).map Candle.close) 0
      fibLevels := [] }
  else
    let high := qmax (completedCandles.map Candle.high)
    let low := qmin (completedCandles.map Candle.low)
    let range := high - low
    let currentPrice := ((lastCandle? candles).getD default).opn
    let position := if range > 0 then (currentPrice - low) / range else 1/2
    let zone : Zone :=
      if position ≥ cfg.pdPremiumThreshold then .PREMIUM
      else if position ≤ cfg.pdDiscountThreshold then .DISCOUNT
      else if |position - 1/2| ≤ cfg.pdEquilibriumBuffer then .EQUILIBRIUM
      else if position > 1/2 then .PREMIUM_EDGE
      else .DISCOUNT_EDGE
    { zone := zone, position := position, high := high, low := low
      equilibrium := (high + low) / 2, currentPrice := currentPrice
      fibLevels :=
        [("0.0", low), ("0.236", low + range * (236/1000)),
         ("0.382", low + range * (382/1000)), ("0.5", low + range * (1/2)),
         ("0.618", low + range * (618/1000)), ("0.786", low + range * (786/1000)),
         ("1.0", high)] }

/-- One Break-of-Structure signal of `detectBOS`. -/
structure BOSSignal where
  type : String
  level : ℚ
  breakCandle : Candle
  strength : ℚ
deriving Repr, DecidableEq

/-- `MarketStructure.detectBOS` (bias-free variant): the in-progress last
candle is excluded from the recent-candle window. -/
def detectBOS (cfg : Config) (candles : List Candle) : List BOSSignal :=
  let s := identifySwings candles cfg.swingLookback true
  let swingHighs := s.1
  let swingLows := s.2
  let recentCandles := sliceNegToLast candles 11
  let bullish : List BOSSignal :=
    if swingHighs.length ≥ 2 then
      match swingHighs.getLast? with
      | some lastSwingHigh =>
        match recentCandles.find? (fun c =>
            c.close > lastSwingHigh.price ∧ c.timestamp > lastSwingHigh.timestamp) with
        | some candle =>
          [{ type := "BULLISH_BOS", level := lastSwingHigh.price
             breakCandle := candle
             strength := (candle.close - lastSwingHigh.price) / lastSwingHigh.price }]
        | none => []
      | none => []
    else []
  let bearish : List BOSSignal :=
    if swingLows.length ≥ 2 then
      match swingLows.getLast? with
      | some lastSwingLow =>
        match recentCandles.find? (fun c =>
            c.close < lastSwingLow.price ∧ c.timestamp > lastSwingLow.timestamp) with
        | some candle =>
          [{ type := "BEARISH_BOS", level := lastSwingLow.price
             breakCandle := candle
             strength := (lastSwingLow.price - candle.close) / lastSwingLow.price }]
        | none => []
      | none => []
    else []
  bullish ++ bearish

/-- Left-pad a numeral string with zeros to length `n`. -/
def zeroPad (n : ℕ) (s : String) : String :=
  String.mk (List.replicate (n - s.length) '0') ++ s

/-- JS `Number.prototype.toFixed(d)`: decimal rendering with `d` digits,
rounding half away from zero (the binary-double tie-breaking corner cases
of the real `toFixed` are not observable at any value this development
evaluates it on). -/
def qToFixed (d : ℕ) (q : ℚ) : String :=
  let p : ℚ := ((10 : ℚ) ^ d)
  let scaled : ℤ :=
    if q ≥ 0 then Int.floor (q * p + 1/2) else - Int.floor ((-q) * p + 1/2)
  let sign := if scaled < 0 then "-" else ""
  let a := scaled.natAbs
  if d = 0 then sign ++ toString a
  else sign ++ toString (a / 10 ^ d) ++ "." ++ zeroPad d (toString (a % 10 ^ d))

/-! ### `src/ict/fairValueGap.js` — `FairValueGap` (bias-free version) -/

/-- One detected Fair Value Gap (`detectFVGs` record; `high` is the top of
the gap and `low` the bottom, `index` is `i - 1`, the displacement
candle's position). -/
structure FVG where
  type : String
  high : ℚ
  low : ℚ
  midpoint : ℚ
  size : ℚ
  sizePercent : ℚ
  timestamp : ℕ
  index : ℕ
  displacementCandle : Candle
  hasDisplacement : Bool
  filled : Bool
  partiallyFilled : Bool
deriving Repr, DecidableEq

/-- `FairValueGap.detectFVGs`: three-candle imbalance gaps over completed
windows (`onlineMode` stops one candle short of the series end).  Returns
`(bullish, bearish)`. -/
def detectFVGs (cfg : Config) (candles : List Candle)
    (onlineMode : Bool := true) : List FVG × List FVG :=
  let maxIndex := if onlineMode then candles.length - 1 else candles.length
  let bull : ℕ → Option FVG := fun i =>
    let candle1 := cget candles (i - 2)
    let candle2 := cget candles (i - 1)
    let candle3 := cget candles i
    if candle3.low > candle1.high then
      let gapSize := candle3.low - candle1.high
      let gapPercent := gapSize / candle2.close * 100
      if cfg.fvgMinSizePercent ≤ gapPercent ∧ gapPercent ≤ cfg.fvgMaxSizePercent then
        let displacementSize := |candle2.close - candle2.opn| / candle2.opn * 100
        let hasDisplacement := displacementSize ≥ cfg.fvgDisplacementMinSize
        if ¬ cfg.fvgRequireDisplacement ∨ hasDisplacement then
          some { type := "BULLISH_FVG", high := candle3.low, low := candle1.high
                 midpoint := (candle3.low + candle1.high) / 2
                 size := gapSize, sizePercent := gapPercent
                 timestamp := candle2.timestamp, index := i - 1
                 displacementCandle := candle2, hasDisplacement := hasDisplacement
                 filled := false, partiallyFilled := false }
        else none
      else none
    else none
  let bear : ℕ → Option FVG := fun i =>
    let candle1 := cget candles (i - 2)
    let candle2 := cget candles (i - 1)
    let candle3 := cget candles i
    if candle1.low > candle3.high then
      let gapSize := candle1.low - candle3.high
      let gapPercent := gapSize / candle2.close * 100
      if cfg.fvgMinSizePercent ≤ gapPercent ∧ gapPercent ≤ cfg.fvgMaxSizePercent then
        let displacementSize := |candle2.close - candle2.opn| / candle2.opn * 100
        let hasDisplacement := displacementSize ≥ cfg.fvgDisplacementMinSize
        if ¬ cfg.fvgRequireDisplacement ∨ hasDisplacement then
          some { type := "BEARISH_FVG", high := candle1.low, low := candle3.high
                 midpoint := (candle1.low + candle3.high) / 2
                 size := gapSize, sizePercent := gapPercent
                 timestamp := candle2.timestamp, index := i - 1
                 displacementCandle := candle2, hasDisplacement := hasDisplacement
                 filled := false, partiallyFilled := false }
        else none
      else none
    else none
  ((loopRange 2 maxIndex).filterMap bull, (loopRange 2 maxIndex).filterMap bear)

/-- The fill scan of `findUnfilledFVGs` for a bullish gap: some completed
candle after the gap origin (indices `fvg.index + 1 ≤ i < length - 1`)
reached the gap bottom. -/
def bullFillScan (candles : List Candle) (fvg : FVG) : Bool :=
  (loopRange (fvg.index + 1) (candles.length - 1)).any
    (fun i => (cget candles i).low ≤ fvg.low)

/-- Partial-fill scan of `findUnfilledFVGs` for a bullish gap (a completed
candle reached the gap midpoint). -/
def bullPartialScan (candles : List Candle) (fvg : FVG) : Bool :=
  (loopRange (fvg.index + 1) (candles.length - 1)).any
    (fun i => (cget candles i).low ≤ fvg.midpoint)

/-- Fill scan for a bearish gap (a completed candle reached the gap top). -/
def bearFillScan (candles : List Candle) (fvg : FVG) : Bool :=
  (loopRange (fvg.index + 1) (candles.length - 1)).any
    (fun i => (cget candles i).high ≥ fvg.high)

/-- Partial-fill scan for a bearish gap. -/
def bearPartialScan (candles : List Candle) (fvg : FVG) : Bool :=
  (loopRange (fvg.index + 1) (candles.length - 1)).any
    (fun i => (cget candles i).high ≥ fvg.midpoint)

/-- An entry of `findUnfilledFVGs`' result: the original gap record (with
its `filled`/`partiallyFilled` flags re-derived from completed candles)
plus the distance data relative to the current candle's open. -/
structure UnfilledFVG where
  fvg : FVG
  distancePercent : ℚ
  isApproaching : Bool
  isInside : Bool
deriving Repr, DecidableEq

/-- `FairValueGap.findUnfilledFVGs` (bias-free version): gaps are detected
on `candles.slice(0, -10)`, fill state is checked against completed
candles only, and the reference price is the in-progress candle's open.
Throws (`Except.error`) on an empty series, as the JS
`candles[candles.length - 1].open` does. -/
def findUnfilledFVGs (cfg : Config) (candles : List Candle) :
    Except String (List UnfilledFVG × List UnfilledFVG) := do
  let allFvgs := detectFVGs cfg (sliceDropLastN candles 10) true
  let currentPrice ←
    match lastCandle? candles with
    | none => .error "Cannot read properties of undefined (reading open)"
    | some c => .ok c.opn
  let bullish := allFvgs.1.filterMap (fun fvg =>
    if bullFillScan candles fvg then none
    else
      let distanceToFVG := (currentPrice - fvg.high) / currentPrice * 100
      let fvg2 := { fvg with filled := false
                             partiallyFilled := bullPartialScan candles fvg }
      some { fvg := fvg2
             distancePercent := distanceToFVG
             isApproaching := distanceToFVG < 1 ∧ distanceToFVG > -(1/2)
             isInside := currentPrice ≤ fvg.high ∧ currentPrice ≥ fvg.low })
  let bearish := allFvgs.2.filterMap (fun fvg =>
    if bearFillScan candles fvg then none
    else
      let distanceToFVG := (fvg.low - currentPrice) / currentPrice * 100
      let fvg2 := { fvg with filled := false
                             partiallyFilled := bearPartialScan candles fvg }
      some { fvg := fvg2
             distancePercent := distanceToFVG
             isApproaching := distanceToFVG < 1 ∧ distanceToFVG > -(1/2)
             isInside := currentPrice ≤ fvg.high ∧ currentPrice ≥ fvg.low })
  return (bullish, bearish)

/-- A scored unfilled gap (`findBestFVG` intermediate record). -/
structure ScoredFVG where
  u : UnfilledFVG
  score : ℚ
deriving Repr, DecidableEq

/-- `FairValueGap.findBestFVG`: rank unfilled gaps for the requested bias
(recency, proximity, displacement, partial-fill penalty) and return the
top-ranked one. -/
def findBestFVG (cfg : Config) (candles : List Candle) (bias : Dir) :
    Except String (Option ScoredFVG) := do
  let unfilled ← findUnfilledFVGs cfg candles
  let targetFvgs := if bias = .bullish then unfilled.1 else unfilled.2
  if targetFvgs.isEmpty then
    return none
  else
    let scored := targetFvgs.map (fun u =>
      let recency : ℚ := 1 - (u.fvg.index : ℚ) / (candles.length : ℚ)
      let score := recency * 30 + (if u.isApproaching then 40 else 0) +
        (if u.isInside then 50 else 0) +
        (if u.fvg.hasDisplacement then 20 else 0) -
        (if u.fvg.partiallyFilled then 10 else 0)
      ScoredFVG.mk u score)
    return (sortDesc ScoredFVG.score scored).head?

/-- Result record of `isAtFVGEntry`. -/
structure FVGEntryResult where
  valid : Bool
  reason : Option String
  fvg : Option ScoredFVG
  entryZoneHigh : Option ℚ
  entryZoneLow : Option ℚ
  entryZoneOptimal : Option ℚ
  proximity : Option String
deriving Repr, DecidableEq

/-- `FairValueGap.isAtFVGEntry`: a valid entry is the best unfilled gap of
the requested bias within 5% distance (or containing the current price). -/
def isAtFVGEntry (cfg : Config) (candles : List Candle) (bias : Dir) :
    Except String FVGEntryResult := do
  let bestFvg? ← findBestFVG cfg candles bias
  match bestFvg? with
  | none =>
    return { valid := false, reason := some "No unfilled FVG found"
             fvg := none, entryZoneHigh := none, entryZoneLow := none
             entryZoneOptimal := none, proximity := none }
  | some bestFvg =>
    let maxDistancePercent : ℚ := 5
    let distance := |bestFvg.u.distancePercent|
    if distance > maxDistancePercent ∧ ¬ bestFvg.u.isInside then
      return { valid := false
               reason := some ("FVG too far: " ++ qToFixed 2 bestFvg.u.distancePercent ++
                 "% away (max 5%)")
               fvg := some bestFvg, entryZoneHigh := none, entryZoneLow := none
               entryZoneOptimal := none, proximity := none }
    else
      return { valid := true, reason := none, fvg := some bestFvg
               entryZoneHigh := some bestFvg.u.fvg.high
               entryZoneLow := some bestFvg.u.fvg.midpoint
               entryZoneOptimal := some bestFvg.u.fvg.midpoint
               proximity := some (if bestFvg.u.isInside then "INSIDE"
                 else if bestFvg.u.isApproaching then "APPROACHING" else "NEARBY") }

/-! ### `src/ict/liquidity.js` — `LiquidityAnalysis` (bias-free version) -/

/-- One extremum touch inside a liquidity cluster. -/
structure Touch where
  index : ℕ
  price : ℚ
  timestamp : ℕ
deriving Repr, DecidableEq

instance : Inhabited Touch := ⟨⟨0, 0, 0⟩⟩

/-- A liquidity pool (`EQUAL_HIGHS` / `EQUAL_LOWS` record). -/
structure LiquidityPool where
  type : String
  liquidityType : String
  price : ℚ
  touches : ℕ
  touchPoints : List Touch
  firstTouch : ℕ
  lastTouch : ℕ
  strength : ℚ
deriving Repr, DecidableEq

/-- One step of the greedy clustering loop: the candidate joins the first
existing group whose running average price is within the relative
tolerance, otherwise it starts a new group at the end. -/
def joinGroup (tolerance : ℚ) (t : Touch) : List (List Touch) → List (List Touch)
  | [] => [[t]]
  | g :: gs =>
    let avg := qsum (g.map Touch.price) / (g.length : ℚ)
    if |t.price - avg| / avg ≤ tolerance then (g ++ [t]) :: gs
    else g :: joinGroup tolerance t gs

/-- Shared clustering core of `findEqualHighs` / `findEqualLows` over a
chosen price projection. -/
def clusterPools (cfg : Config) (candles : List Candle) (onlineMode : Bool)
    (price : Candle → ℚ) (typeName liqType : String) : List LiquidityPool :=
  let tolerance := cfg.liqEqualTolerance / 100
  let minTouches := cfg.liqMinPoolTouches
  let maxIndex := if onlineMode then candles.length - 1 else candles.length
  let groups := (loopRange 0 maxIndex).foldl (fun gs i =>
    joinGroup tolerance
      ⟨i, price (cget candles i), (cget candles i).timestamp⟩ gs) []
  let pools := groups.filterMap (fun g =>
    if g.length ≥ minTouches then
      some { type := typeName, liquidityType := liqType
             price := qsum (g.map Touch.price) / (g.length : ℚ)
             touches := g.length, touchPoints := g
             firstTouch := (g.headD default).timestamp
             lastTouch := (g.getLastD default).timestamp
             strength := (g.length : ℚ) * 10 }
    else none)
  sortDesc LiquidityPool.strength pools

/-- `LiquidityAnalysis.findEqualHighs` (buy-side liquidity; excludes the
in-progress last candle in online mode). -/
def findEqualHighs (cfg : Config) (candles : List Candle)
    (onlineMode : Bool := true) : List LiquidityPool :=
  clusterPools cfg candles onlineMode Candle.high "EQUAL_HIGHS" "BUY_SIDE"

/-- `LiquidityAnalysis.findEqualLows` (sell-side liquidity). -/
def findEqualLows (cfg : Config) (candles : List Candle)
    (onlineMode : Bool := true) : List LiquidityPool :=
  clusterPools cfg candles onlineMode Candle.low "EQUAL_LOWS" "SELL_SIDE"

/-- A detected liquidity sweep (stop hunt) event. -/
structure Sweep where
  type : String
  direction : Dir
  liquidityPool : LiquidityPool
  sweepCandle : Candle
  sweepPrice : ℚ
  confirmationCandles : List Candle
  timestamp : ℕ
  confirmedAt : ℕ
  strength : ℚ
  candlesSinceConfirmation : ℤ
deriving Repr, DecidableEq

/-- `LiquidityAnalysis.detectLiquiditySweep` (no-look-ahead version):
pools come from `candles.slice(0, -10)`; in online mode sweep candidates
run up to index `length - confirmationNeeded - 1` inclusive, and each
candidate needs `confirmationNeeded` subsequent candles all closing on the
rejecting side of the pool price. -/
def detectLiquiditySweep (cfg : Config) (candles : List Candle)
    (onlineMode : Bool := true) : List Sweep :=
  let confirmationNeeded := cfg.liqSweepConfirmationCandles
  let equalHighs := findEqualHighs cfg (sliceDropLastN candles 10) onlineMode
  let equalLows := findEqualLows cfg (sliceDropLastN candles 10) onlineMode
  -- `i <= maxSweepIndex` with `maxSweepIndex = length - confirmationNeeded - 1`
  -- (online) or `length - 1`: as an exclusive bound, `length -
  -- confirmationNeeded` resp. `length` (ℕ-truncation = the JS loop simply
  -- not running when the bound is negative).
  let bound := if onlineMode then candles.length - confirmationNeeded
    else candles.length
  let startIndex := candles.length - 20
  let indices := loopRange startIndex bound
  let buySide := equalHighs.flatMap (fun liqPool =>
    indices.filterMap (fun i =>
      let sweepCandle := cget candles i
      if sweepCandle.high > liqPool.price then
        let closedBelow := sweepCandle.close < liqPool.price
        let wickAbove := sweepCandle.high - max sweepCandle.opn sweepCandle.close
        let bodySize := jsOrQ |sweepCandle.close - sweepCandle.opn| (1/100)
        if closedBelow ∧ wickAbove > bodySize * (1/2) then
          let confirmationCandles := (candles.drop (i + 1)).take confirmationNeeded
          if confirmationCandles.length ≥ confirmationNeeded then
            if confirmationCandles.all (fun c => c.close < liqPool.price) then
              some { type := "BUY_SIDE_SWEEP", direction := .bearish
                     liquidityPool := liqPool, sweepCandle := sweepCandle
                     sweepPrice := sweepCandle.high
                     confirmationCandles := confirmationCandles
                     timestamp := sweepCandle.timestamp
                     confirmedAt := (confirmationCandles.getLastD default).timestamp
                     strength := liqPool.strength + wickAbove / bodySize * 10
                     candlesSinceConfirmation :=
                       (candles.length : ℤ) - 1 - ((i : ℤ) + confirmationNeeded) }
            else none
          else none
        else none
      else none))
  let sellSide := equalLows.flatMap (fun liqPool =>
    indices.filterMap (fun i =>
      let sweepCandle := cget candles i
      if sweepCandle.low < liqPool.price then
        let closedAbove := sweepCandle.close > liqPool.price
        let wickBelow := min sweepCandle.opn sweepCandle.close - sweepCandle.low
        let bodySize := jsOrQ |sweepCandle.close - sweepCandle.opn| (1/100)
        if closedAbove ∧ wickBelow > bodySize * (1/2) then
          let confirmationCandles := (candles.drop (i + 1)).take confirmationNeeded
          if confirmationCandles.length ≥ confirmationNeeded then
            if confirmationCandles.all (fun c => c.close > liqPool.price) then
              some { type := "SELL_SIDE_SWEEP", direction := .bullish
                     liquidityPool := liqPool, sweepCandle := sweepCandle
                     sweepPrice := sweepCandle.low
                     confirmationCandles := confirmationCandles
                     timestamp := sweepCandle.timestamp
                     confirmedAt := (confirmationCandles.getLastD default).timestamp
                     strength := liqPool.strength + wickBelow / bodySize * 10
                     candlesSinceConfirmation :=
                       (candles.length : ℤ) - 1 - ((i : ℤ) + confirmationNeeded) }
            else none
          else none
        else none
      else none))
  sortDesc Sweep.strength (buySide ++ sellSide)

/-- Result record of `hasRecentLiquiditySweep`. -/
structure SweepCheckResult where
  swept : Bool
  reason : Option String
  sweep : Option Sweep
  candlesSinceSweep : Option ℤ
deriving Repr, DecidableEq

/-- `LiquidityAnalysis.hasRecentLiquiditySweep`: a confirmed sweep of the
expected direction within the last 10 candles. -/
def hasRecentLiquiditySweep (cfg : Config) (candles : List Candle)
    (expectedDirection : Dir) : SweepCheckResult :=
  let sweeps := detectLiquiditySweep cfg candles true
  match sweeps with
  | [] =>
    { swept := false, reason := some "No liquidity sweep detected"
      sweep := none, candlesSinceSweep := none }
  | first :: _ =>
    let matchingSweeps := sweeps.filter (fun s => s.direction = expectedDirection)
    match matchingSweeps with
    | [] =>
      { swept := false
        reason := some ("Sweep detected but wrong direction (" ++
          first.direction.render ++ ")")
        sweep := none, candlesSinceSweep := none }
    | latestSweep :: _ =>
      let sweepIndex : ℤ :=
        match candles.findIdx? (fun c => c.timestamp = latestSweep.timestamp) with
        | some i => (i : ℤ)
        | none => -1
      let candlesSinceSweep : ℤ := (candles.length : ℤ) - 1 - sweepIndex
      if candlesSinceSweep > 10 then
        { swept := false
          reason := some ("Sweep too old (" ++ toString candlesSinceSweep ++
            " candles ago)")
          sweep := some latestSweep, candlesSinceSweep := none }
      else
        { swept := true, reason := none, sweep := some latestSweep
          candlesSinceSweep := some candlesSinceSweep }

/-! ### `src/data/smtDivergence.js` — `SMTDivergence`

The JS Pearson correlation is `num / Math.sqrt(d1 * d2)`, an irrational
number in general.  The embedding keeps the exact rational pair
`(num, d1 * d2)` and represents the correlation by its *signed square*
`sign(num) · num² / (d1·d2)` (`calculateCorrelationSq`); the one place the
source *compares* the correlation (against `CORRELATION_THRESHOLD`) is
translated to the exactly equivalent rational inequality
(`correlationLt`).  Stored correlation fields therefore hold the signed
square of the JS value; no embedded control flow depends on the
untranslated value. -/

/-- The Pearson numerator and the product `denom1 * denom2` of
`calculateCorrelation` (`(0, 0)` in the early-return cases). -/
def correlationParts (series1 series2 : List ℚ) : ℚ × ℚ :=
  if series1.length ≠ series2.length ∨ series1.length < 2 then (0, 0)
  else
    let n := series1.length
    let mean1 := qsum series1 / (n : ℚ)
    let mean2 := qsum series2 / (n : ℚ)
    let pairs := series1.zip series2
    let numerator := qsum (pairs.map (fun p => (p.1 - mean1) * (p.2 - mean2)))
    let denom1 := qsum (pairs.map (fun p => (p.1 - mean1) * (p.1 - mean1)))
    let denom2 := qsum (pairs.map (fun p => (p.2 - mean2) * (p.2 - mean2)))
    (numerator, denom1 * denom2)

/-- Signed square of `SMTDivergence.calculateCorrelation` (the JS value is
`sign · √|·|` of this; `0` when the JS function returns `0`). -/
def calculateCorrelationSq (series1 series2 : List ℚ) : ℚ :=
  let p := correlationParts series1 series2
  if p.2 = 0 then 0
  else if p.1 ≥ 0 then p.1 ^ 2 / p.2 else -(p.1 ^ 2 / p.2)

/-- Exact translation of the JS comparison
`calculateCorrelation(s1, s2) < t`. -/
def correlationLt (series1 series2 : List ℚ) (t : ℚ) : Bool :=
  let p := correlationParts series1 series2
  if p.2 = 0 then 0 < t
  else if p.1 ≥ 0 then (if 0 ≤ t then p.1 ^ 2 < t ^ 2 * p.2 else false)
  else (if 0 ≤ t then true else p.1 ^ 2 > t ^ 2 * p.2)

/-- A swing mark of the SMT module (`{index, price, timestamp, confirmedAt}`). -/
structure SwingMark where
  index : ℕ
  price : ℚ
  timestamp : ℕ
  confirmedAt : ℕ
deriving Repr, DecidableEq

instance : Inhabited SwingMark := ⟨⟨0, 0, 0, 0⟩⟩

/-- `SMTDivergence.findSwingHighs` (online, no look-ahead). -/
def findSwingHighs (candles : List Candle) (lookback : ℕ := 5)
    (onlineMode : Bool := true) : List SwingMark :=
  let maxIndex := if onlineMode then candles.length - lookback - 1
    else candles.length - lookback
  (loopRange lookback maxIndex).filterMap (fun i =>
    let ok :=
      (loopRange 1 (lookback + 1)).all (fun j =>
        ¬ ((cget candles (i - j)).high ≥ (cget candles i).high)) &&
      (loopRange 1 (lookback + 1)).all (fun j =>
        if i + j < candles.length
        then ¬ ((cget candles (i + j)).high ≥ (cget candles i).high)
        else true)
    if ok then
      some { index := i, price := (cget candles i).high
             timestamp := (cget candles i).timestamp
             confirmedAt := (cget candles (min (i + lookback) (candles.length - 1))).timestamp }
    else none)

/-- `SMTDivergence.findSwingLows` (online, no look-ahead). -/
def findSwingLows (candles : List Candle) (lookback : ℕ := 5)
    (onlineMode : Bool := true) : List SwingMark :=
  let maxIndex := if onlineMode then candles.length - lookback - 1
    else candles.length - lookback
  (loopRange lookback maxIndex).filterMap (fun i =>
    let ok :=
      (loopRange 1 (lookback + 1)).all (fun j =>
        ¬ ((cget candles (i - j)).low ≤ (cget candles i).low)) &&
      (loopRange 1 (lookback + 1)).all (fun j =>
        if i + j < candles.length
        then ¬ ((cget candles (i + j)).low ≤ (cget candles i).low)
        else true)
    if ok then
      some { index := i, price := (cget candles i).low
             timestamp := (cget candles i).timestamp
             confirmedAt := (cget candles (min (i + lookback) (candles.length - 1))).timestamp }
    else none)

/-- One SMT divergence event. -/
structure Divergence where
  type : String
  direction : Dir
  btcAction : String
  ethAction : String
  btcLatest : SwingMark
  btcPrevious : SwingMark
  ethLatest : SwingMark
  ethPrevious : SwingMark
  divergencePercent : ℚ
  timestamp : ℕ
  /-- `strength` uses the correlation's signed square (see module note). -/
  strength : ℚ
deriving Repr, DecidableEq

/-- Result of `detectDivergence` (`correlationSq` holds the signed square
of the JS `correlation`). -/
structure DivergenceAnalysis where
  valid : Bool
  reason : Option String
  correlationSq : ℚ
  divergences : List Divergence
  latestDivergence : Option Divergence
deriving Repr, DecidableEq

/-- `SMTDivergence.detectDivergence`: throws when the two candle arrays
have different lengths, otherwise correlation-gates and then compares the
two assets' most recent confirmed swing pairs. -/
def detectDivergence (cfg : Config) (btcCandles ethCandles : List Candle) :
    Except String DivergenceAnalysis := do
  if btcCandles.length ≠ ethCandles.length then
    .error "BTC and ETH candle arrays must be same length"
  else
    let lookback := cfg.smtDivergenceLookback
    let btcCloses := (sliceLastN btcCandles 50).map Candle.close
    let ethCloses := (sliceLastN ethCandles 50).map Candle.close
    let correlationSq := calculateCorrelationSq btcCloses ethCloses
    if correlationLt btcCloses ethCloses cfg.smtCorrelationThreshold then
      return { valid := false
               reason := some ("Correlation too low: " ++ qToFixed 3 correlationSq ++
                 " (signed square) vs threshold " ++ qToFixed 3 cfg.smtCorrelationThreshold)
               correlationSq := correlationSq, divergences := []
               latestDivergence := none }
    else
      let btcSwingHighs := findSwingHighs (sliceLastN btcCandles (lookback * 2))
      let ethSwingHighs := findSwingHighs (sliceLastN ethCandles (lookback * 2))
      let btcSwingLows := findSwingLows (sliceLastN btcCandles (lookback * 2))
      let ethSwingLows := findSwingLows (sliceLastN ethCandles (lookback * 2))
      let bearish : List Divergence :=
        if btcSwingHighs.length ≥ 2 ∧ ethSwingHighs.length ≥ 2 then
          let btcLatestHigh := btcSwingHighs.getLastD default
          let btcPrevHigh := (btcSwingHighs.dropLast).getLastD default
          let ethLatestHigh := ethSwingHighs.getLastD default
          let ethPrevHigh := (ethSwingHighs.dropLast).getLastD default
          if btcLatestHigh.price > btcPrevHigh.price ∧
              ethLatestHigh.price < ethPrevHigh.price then
            let btcMove := (btcLatestHigh.price - btcPrevHigh.price) / btcPrevHigh.price * 100
            let ethMove := (ethLatestHigh.price - ethPrevHigh.price) / ethPrevHigh.price * 100
            if |btcMove - ethMove| ≥ cfg.smtMinDivergencePercent then
              [{ type := "BEARISH_SMT", direction := .bearish
                 btcAction := "HIGHER_HIGH", ethAction := "LOWER_HIGH"
                 btcLatest := btcLatestHigh, btcPrevious := btcPrevHigh
                 ethLatest := ethLatestHigh, ethPrevious := ethPrevHigh
                 divergencePercent := |btcMove - ethMove|
                 timestamp := btcLatestHigh.timestamp
                 strength := |btcMove - ethMove| * 10 + correlationSq * 20 }]
            else []
          else []
        else []
      let bullish : List Divergence :=
        if btcSwingLows.length ≥ 2 ∧ ethSwingLows.length ≥ 2 then
          let btcLatestLow := btcSwingLows.getLastD default
          let btcPrevLow := (btcSwingLows.dropLast).getLastD default
          let ethLatestLow := ethSwingLows.getLastD default
          let ethPrevLow := (ethSwingLows.dropLast).getLastD default
          if btcLatestLow.price < btcPrevLow.price ∧
              ethLatestLow.price > ethPrevLow.price then
            let btcMove := (btcPrevLow.price - btcLatestLow.price) / btcPrevLow.price * 100
            let ethMove := (ethPrevLow.price - ethLatestLow.price) / ethPrevLow.price * 100
            if |btcMove - ethMove| ≥ cfg.smtMinDivergencePercent then
              [{ type := "BULLISH_SMT", direction := .bullish
                 btcAction := "LOWER_LOW", ethAction := "HIGHER_LOW"
                 btcLatest := btcLatestLow, btcPrevious := btcPrevLow
                 ethLatest := ethLatestLow, ethPrevious := ethPrevLow
                 divergencePercent := |btcMove - ethMove|
                 timestamp := btcLatestLow.timestamp
                 strength := |btcMove - ethMove| * 10 + correlationSq * 20 }]
            else []
          else []
        else []
      let divergences := bearish ++ bullish
      return { valid := ¬ divergences.isEmpty
               reason := none
               correlationSq := correlationSq
               divergences := divergences
               latestDivergence := divergences.getLast? }

/-- Result of `checkSMTConfirmation`. -/
structure SMTCheckResult where
  confirmed : Bool
  reason : Option String
  correlationSq : Option ℚ
  divergence : Option Divergence
  divergences : Option (List Divergence)
  candlesSinceDivergence : Option ℤ
deriving Repr, DecidableEq

/-- `SMTDivergence.checkSMTConfirmation`: propagates the length-mismatch
exception of `detectDivergence`; otherwise confirms a matching, recent
divergence. -/
def checkSMTConfirmation (cfg : Config) (btcCandles ethCandles : List Candle)
    (expectedDirection : Dir) : Except String SMTCheckResult := do
  let analysis ← detectDivergence cfg btcCandles ethCandles
  if ¬ analysis.valid then
    return { confirmed := false
             reason := some (analysis.reason.getD "No SMT divergence detected")
             correlationSq := some analysis.correlationSq
             divergence := none, divergences := none
             candlesSinceDivergence := none }
  else
    match analysis.divergences.find? (fun d => d.direction = expectedDirection) with
    | none =>
      return { confirmed := false
               reason := some ("SMT divergence found but wrong direction (" ++
                 (match analysis.latestDivergence with
                  | some d => d.direction.render
                  | none => "undefined") ++ ")")
               correlationSq := some analysis.correlationSq
               divergence := none, divergences := some analysis.divergences
               candlesSinceDivergence := none }
    | some matchingDivergence =>
      let divergenceIndex : ℤ :=
        match btcCandles.findIdx? (fun c => c.timestamp = matchingDivergence.timestamp) with
        | some i => (i : ℤ)
        | none => -1
      let candlesSinceDivergence : ℤ := (btcCandles.length : ℤ) - 1 - divergenceIndex
      if candlesSinceDivergence > (cfg.smtDivergenceLookback : ℤ) then
        return { confirmed := false
                 reason := some ("SMT divergence too old (" ++
                   toString candlesSinceDivergence ++ " candles ago)")
                 correlationSq := none
                 divergence := some matchingDivergence, divergences := none
                 candlesSinceDivergence := none }
      else
        return { confirmed := true, reason := none
                 correlationSq := some analysis.correlationSq
                 divergence := some matchingDivergence, divergences := none
                 candlesSinceDivergence := some candlesSinceDivergence }

/-! ### `src/ict/mmxm.js` — `MMXM` (Market Maker Model) -/

/-- Result of `detectAccumulation`.  `rangePercent` and `isSideways` are
`NaN`/`false` in JS when the window is empty; the embedding stores `0` and
computes `isSideways` with an emptiness guard so that the boolean agrees
with the JS `NaN < 2 = false`. -/
structure AccumulationResult where
  detected : Bool
  rangeCompression : Bool
  hasLiquidityBuildup : Bool
  isSideways : Bool
  rangePercent : ℚ
  equalHighsCount : ℕ
  equalLowsCount : ℕ
  liquidityAbove : Option ℚ
  liquidityBelow : Option ℚ
deriving Repr, DecidableEq

/-- `MMXM.detectAccumulation`: range compression plus liquidity build-up
over the last 30 candles of the given window. -/
def detectAccumulation (cfg : Config) (candles : List Candle) :
    AccumulationResult :=
  let recentCandles := sliceLastN candles 30
  let ranges := recentCandles.map (fun c => c.high - c.low)
  let avgRange := qsum ranges / (ranges.length : ℚ)
  let recentAvgRange := qsum (sliceLastN ranges 10) / 10
  let rangeCompression := recentAvgRange < avgRange * (7/10)
  let equalHighs := findEqualHighs cfg recentCandles
  let equalLows := findEqualLows cfg recentCandles
  let hasLiquidityBuildup := ¬ equalHighs.isEmpty ∨ ¬ equalLows.isEmpty
  let high := qmax (recentCandles.map Candle.high)
  let low := qmin (recentCandles.map Candle.low)
  let rangePercent := (high - low) / low * 100
  let isSideways := ¬ recentCandles.isEmpty ∧ rangePercent < 2
  { detected := rangeCompression ∧ hasLiquidityBuildup
    rangeCompression := rangeCompression
    hasLiquidityBuildup := hasLiquidityBuildup
    isSideways := isSideways
    rangePercent := rangePercent
    equalHighsCount := equalHighs.length
    equalLowsCount := equalLows.length
    liquidityAbove := (equalHighs.head?).map LiquidityPool.price
    liquidityBelow := (equalLows.head?).map LiquidityPool.price }

/-- Result of `detectManipulation`. -/
structure ManipulationResult where
  detected : Bool
  sweep : Option Sweep
  manipulationPercent : Option ℚ
  wickRatio : Option ℚ
  expectedDistributionDirection : Option Dir
  reason : String
deriving Repr, DecidableEq

/-- `MMXM.detectManipulation`: the strongest confirmed sweep with a large
enough directional move and a dominant rejection wick. -/
def detectManipulation (cfg : Config) (candles : List Candle) :
    ManipulationResult :=
  let sweeps := detectLiquiditySweep cfg candles
  match sweeps with
  | [] =>
    { detected := false, sweep := none, manipulationPercent := none
      wickRatio := none, expectedDistributionDirection := none
      reason := "No liquidity sweep detected" }
  | latestSweep :: _ =>
    let sweepCandle := latestSweep.sweepCandle
    let manipulationMove :=
      if latestSweep.type = "BUY_SIDE_SWEEP"
      then (sweepCandle.high - sweepCandle.opn) / sweepCandle.opn * 100
      else (sweepCandle.opn - sweepCandle.low) / sweepCandle.opn * 100
    let significantManipulation := manipulationMove ≥ cfg.mmxmMinManipulationPercent
    let bodySize := |sweepCandle.close - sweepCandle.opn|
    let totalSize := sweepCandle.high - sweepCandle.low
    let wickRatio := (totalSize - bodySize) / totalSize
    let hasStrongRejection := wickRatio > 1/2
    { detected := significantManipulation ∧ hasStrongRejection
      sweep := some latestSweep
      manipulationPercent := some manipulationMove
      wickRatio := some wickRatio
      expectedDistributionDirection := some latestSweep.direction
      reason :=
        if significantManipulation ∧ hasStrongRejection
        then "Manipulation phase confirmed"
        else "Weak manipulation (move: " ++ qToFixed 2 manipulationMove ++
          "%, wick: " ++ qToFixed 0 (wickRatio * 100) ++ "%)" }

/-- Result of `detectDistribution` (the bare `{detected: false}` early
object of `analyzeMMXMCycle` is modelled with empty lists and `none`). -/
structure DistributionResult where
  detected : Bool
  fvgs : List FVG
  bosSignals : List BOSSignal
  displacementCandles : ℕ
  direction : Option Dir
deriving Repr, DecidableEq

/-- `MMXM.detectDistribution`: a relevant gap plus directional
displacement candles inside the last 15 candles (the BOS signals are
collected but do not gate `detected`). -/
def detectDistribution (cfg : Config) (candles : List Candle)
    (expectedDirection : Dir) : DistributionResult :=
  let recentCandles := sliceLastN candles 15
  let fvgs := detectFVGs cfg recentCandles
  let relevantFvgs := if expectedDirection = .bullish then fvgs.1 else fvgs.2
  let bos := detectBOS cfg candles
  let relevantBos := bos.filter (fun b =>
    (expectedDirection = .bullish ∧ b.type = "BULLISH_BOS") ∨
    (expectedDirection = .bearish ∧ b.type = "BEARISH_BOS"))
  let displacementCandles := recentCandles.filter (fun c =>
    let movePercent := |c.close - c.opn| / c.opn * 100
    let isDirectional := if expectedDirection = .bullish
      then c.close > c.opn else c.close < c.opn
    movePercent ≥ cfg.fvgDisplacementMinSize ∧ isDirectional)
  { detected := ¬ relevantFvgs.isEmpty ∧ ¬ displacementCandles.isEmpty
    fvgs := relevantFvgs
    bosSignals := relevantBos
    displacementCandles := displacementCandles.length
    direction := some expectedDirection }

/-- Result of `analyzeMMXMCycle`. -/
structure MMXMResult where
  currentPhase : String
  accumulation : AccumulationResult
  manipulation : ManipulationResult
  distribution : DistributionResult
  tradeable : Bool
  confidence : ℚ
  direction : Dir
  entryReason : String
deriving Repr, DecidableEq

/-- `MMXM.analyzeMMXMCycle`: accumulation / manipulation / distribution
phase read with a `tradeable` flag for the two tradable phases. -/
def analyzeMMXMCycle (cfg : Config) (candles : List Candle) (htfBias : Dir) :
    MMXMResult :=
  let accumulation := detectAccumulation cfg (sliceDropLastN candles 20)
  let manipulation := detectManipulation cfg candles
  let expectedDirection :=
    if manipulation.detected
    then manipulation.expectedDistributionDirection.getD .neutral
    else htfBias
  let distribution :=
    if manipulation.detected
    then detectDistribution cfg candles expectedDirection
    else { detected := false, fvgs := [], bosSignals := []
           displacementCandles := 0, direction := none }
  let phase : String × Bool × ℚ :=
    if distribution.detected then ("DISTRIBUTION", true, 72/100)
    else if manipulation.detected then ("MANIPULATION_COMPLETE", true, 68/100)
    else if accumulation.detected then ("ACCUMULATION", false, 3/10)
    else ("UNKNOWN", false, 0)
  { currentPhase := phase.1
    accumulation := accumulation
    manipulation := manipulation
    distribution := distribution
    tradeable := phase.2.1
    confidence := phase.2.2
    direction := expectedDirection
    entryReason :=
      if phase.2.1 then
        "MMXM " ++ phase.1 ++ ": " ++
          (if manipulation.detected then "Liquidity swept" else "") ++ " " ++
          (if distribution.detected then "Distribution started" else "")
      else "Waiting for manipulation/distribution" }

/-- Result of `detectJudasSwing` (early returns carry only `detected` and
`reason`; their missing `tradeable` field is falsy in JS, modelled as
`false`). -/
structure JudasResult where
  detected : Bool
  reason : Option String
  judasDirection : Option Dir
  expectedReversal : Option Dir
  judasMovePercent : Option ℚ
  hitLiquidity : Option Bool
  reversalStarted : Option Bool
  sessionOpenPrice : Option ℚ
  judasExtreme : Option ℚ
  tradeable : Bool
deriving Repr, DecidableEq

/-- `MMXM.detectJudasSwing`: an initial post-session-open move against the
higher-timeframe bias, hitting liquidity, followed by a reversal. -/
def detectJudasSwing (cfg : Config) (candles : List Candle)
    (sessionOpenIndex : ℤ) (htfBias : Dir) : JudasResult :=
  if sessionOpenIndex < 0 ∨ sessionOpenIndex ≥ (candles.length : ℤ) - 5 then
    { detected := false, reason := some "Invalid session open index"
      judasDirection := none, expectedReversal := none, judasMovePercent := none
      hitLiquidity := none, reversalStarted := none, sessionOpenPrice := none
      judasExtreme := none, tradeable := false }
  else
    let idx := sessionOpenIndex.toNat
    let sessionOpenPrice := (cget candles idx).opn
    let postOpenCandles := (candles.drop idx).take 10
    let initialMove := postOpenCandles.take 3
    let initialDirection : Dir :=
      if (initialMove.getLastD default).close > sessionOpenPrice
      then .bullish else .bearish
    let isJudasMove := initialDirection ≠ htfBias
    if ¬ isJudasMove then
      { detected := false
        reason := some "Initial move aligned with HTF bias (not a Judas swing)"
        judasDirection := none, expectedReversal := none, judasMovePercent := none
        hitLiquidity := none, reversalStarted := none, sessionOpenPrice := none
        judasExtreme := none, tradeable := false }
    else
      let judasExtreme :=
        if initialDirection = .bullish then qmax (initialMove.map Candle.high)
        else qmin (initialMove.map Candle.low)
      let judasMovePercent := |judasExtreme - sessionOpenPrice| / sessionOpenPrice * 100
      let postJudasCandles := postOpenCandles.drop 3
      let reversalDetected := postJudasCandles.any (fun c =>
        if htfBias = .bullish then c.close > judasExtreme
        else c.close < judasExtreme)
      let liquiditySweep := detectLiquiditySweep cfg (candles.take (idx + 5))
      let hitLiquidity := liquiditySweep.any (fun s =>
        s.timestamp ≥ (cget candles idx).timestamp)
      { detected := isJudasMove ∧ judasMovePercent ≥ 1/5
        reason := none
        judasDirection := some initialDirection
        expectedReversal := some htfBias
        judasMovePercent := some judasMovePercent
        hitLiquidity := some hitLiquidity
        reversalStarted := some reversalDetected
        sessionOpenPrice := some sessionOpenPrice
        judasExtreme := some judasExtreme
        tradeable := isJudasMove ∧ hitLiquidity ∧ reversalDetected }

/-! ### `src/ict/killzones.js` — `KillzoneDetector`

Every wall-clock read (`new Date()`) is replaced by the explicit `now`
parameter (epoch milliseconds); killzone window bounds are minutes since
UTC midnight (the source parses `"HH:MM"` strings with `parseTime`). -/

/-- The four named killzones. -/
inductive KzName where
  | ASIA
  | LONDON
  | NEW_YORK_AM
  | NEW_YORK_PM
deriving Repr, DecidableEq

/-- Source key string of a killzone name. -/
def KzName.render : KzName → String
  | .ASIA => "ASIA"
  | .LONDON => "LONDON"
  | .NEW_YORK_AM => "NEW_YORK_AM"
  | .NEW_YORK_PM => "NEW_YORK_PM"

/-- The `(ENABLED, START, END, DESCRIPTION)` tuple of `CONFIG.KILLZONES[name]`. -/
def kzOf (cfg : Config) : KzName → Bool × ℕ × ℕ × String
  | .ASIA => (cfg.kzAsiaEnabled, cfg.kzAsiaStart, cfg.kzAsiaEnd, cfg.kzAsiaDescription)
  | .LONDON => (cfg.kzLondonEnabled, cfg.kzLondonStart, cfg.kzLondonEnd, cfg.kzLondonDescription)
  | .NEW_YORK_AM => (cfg.kzNyAmEnabled, cfg.kzNyAmStart, cfg.kzNyAmEnd, cfg.kzNyAmDescription)
  | .NEW_YORK_PM => (cfg.kzNyPmEnabled, cfg.kzNyPmStart, cfg.kzNyPmEnd, cfg.kzNyPmDescription)

/-- `KillzoneDetector.isInKillzone`: within the named enabled window on a
weekday. -/
def isInKillzone (cfg : Config) (now : ℕ) (killzoneName : KzName) : Bool :=
  let kz := kzOf cfg killzoneName
  if ¬ kz.1 then false
  else if utcDayOfWeek now = 0 ∨ utcDayOfWeek now = 6 then false
  else
    kz.2.1 ≤ utcTotalMinutes now ∧ utcTotalMinutes now ≤ kz.2.2.1

/-- Result of `isInAnyKillzone`. -/
structure InAnyKzResult where
  active : Bool
  killzone : Option KzName
  description : Option String
deriving Repr, DecidableEq

/-- `KillzoneDetector.isInAnyKillzone`: first active window in the fixed
scan order ASIA, LONDON, NEW_YORK_AM, NEW_YORK_PM. -/
def isInAnyKillzone (cfg : Config) (now : ℕ) : InAnyKzResult :=
  let names : List KzName := [.ASIA, .LONDON, .NEW_YORK_AM, .NEW_YORK_PM]
  match names.find? (fun n => isInKillzone cfg now n) with
  | some n => { active := true, killzone := some n
                description := some (kzOf cfg n).2.2.2 }
  | none => { active := false, killzone := none, description := none }

/-- Result of `isInSilverBullet`. -/
structure SilverBulletResult where
  active : Bool
  window : Option String
  minutesRemaining : Option ℕ
deriving Repr, DecidableEq

/-- `KillzoneDetector.isInSilverBullet`: first matching silver-bullet
micro-window (weekends excluded). -/
def isInSilverBullet (cfg : Config) (now : ℕ) : SilverBulletResult :=
  if utcDayOfWeek now = 0 ∨ utcDayOfWeek now = 6 then
    { active := false, window := none, minutesRemaining := none }
  else
    match cfg.kzSilverBullet.find? (fun w =>
        w.2.1 ≤ utcTotalMinutes now ∧ utcTotalMinutes now ≤ w.2.2) with
    | some w =>
      { active := true, window := some w.1
        minutesRemaining := some (w.2.2 - utcTotalMinutes now) }
    | none => { active := false, window := none, minutesRemaining := none }

/-- Result of `getNextKillzone`. -/
structure NextKillzone where
  name : String
  startTime : ℕ
  minutesUntil : ℕ
  hoursUntil : String
deriving Repr, DecidableEq

/-- `KillzoneDetector.getNextKillzone`: nearest upcoming start among the
LONDON and NEW_YORK_AM windows (wrapping to tomorrow), scanned in that
order with a strict-improvement update (ties keep the earlier name). -/
def getNextKillzone (cfg : Config) (now : ℕ) : Option NextKillzone :=
  let cands : List (String × Bool × ℕ) :=
    [("LONDON", cfg.kzLondonEnabled, cfg.kzLondonStart),
     ("NEW_YORK_AM", cfg.kzNyAmEnabled, cfg.kzNyAmStart)]
  cands.foldl (fun best c =>
    if ¬ c.2.1 then best
    else
      let minutesUntil :=
        if c.2.2 < utcTotalMinutes now
        then c.2.2 + 24 * 60 - utcTotalMinutes now
        else c.2.2 - utcTotalMinutes now
      let better := match best with
        | none => true
        | some b => minutesUntil < b.minutesUntil
      if better then
        some { name := c.1, startTime := c.2.2, minutesUntil := minutesUntil
               hoursUntil := qToFixed 1 ((minutesUntil : ℚ) / 60) }
      else best) none

/-- Result of `getSessionOpenInfo`. -/
structure SessionOpenInfo where
  withinSessionOpen : Bool
  session : Option String
  minutesSinceOpen : Option ℕ
  openTime : Option ℕ
deriving Repr, DecidableEq

/-- `KillzoneDetector.getSessionOpenInfo`: within 30 minutes after the
hardcoded London (07:00) or New York (13:00) session open. -/
def getSessionOpenInfo (now : ℕ) : SessionOpenInfo :=
  let sessions : List (ℕ × String) := [(7 * 60, "London"), (13 * 60, "New York")]
  match sessions.find? (fun s =>
      s.1 ≤ utcTotalMinutes now ∧ utcTotalMinutes now - s.1 ≤ 30) with
  | some s =>
    { withinSessionOpen := true, session := some s.2
      minutesSinceOpen := some (utcTotalMinutes now - s.1), openTime := some s.1 }
  | none =>
    { withinSessionOpen := false, session := none
      minutesSinceOpen := none, openTime := none }

/-- Result of `getKillzoneQuality`. -/
structure KillzoneQuality where
  score : ℚ
  maxScore : Option ℕ
  tradeable : Bool
  reason : Option String
  nextKillzone : Option NextKillzone
  factors : List String
  inKillzone : Option InAnyKzResult
  inSilverBullet : Option SilverBulletResult
  sessionOpen : Option SessionOpenInfo
deriving Repr, DecidableEq

/-- `KillzoneDetector.getKillzoneQuality`. -/
def getKillzoneQuality (cfg : Config) (now : ℕ) : KillzoneQuality :=
  let inKz := isInAnyKillzone cfg now
  let inSB := isInSilverBullet cfg now
  let sessionOpen := getSessionOpenInfo now
  if ¬ inKz.active then
    { score := 0, maxScore := none, tradeable := false
      reason := some "Outside killzone"
      nextKillzone := getNextKillzone cfg now
      factors := [], inKillzone := none, inSilverBullet := none
      sessionOpen := none }
  else
    let s1 : ℚ × List String :=
      (5, ["In " ++ ((inKz.killzone.map KzName.render).getD "undefined") ++ " killzone"])
    let s2 : ℚ × List String :=
      if inSB.active
      then (s1.1 + 3, s1.2 ++ ["Silver Bullet window (" ++ (inSB.window.getD "undefined") ++ ")"])
      else s1
    let s3 : ℚ × List String :=
      if sessionOpen.withinSessionOpen
      then (s2.1 + 2, s2.2 ++ ["Near " ++ (sessionOpen.session.getD "undefined") ++ " session open"])
      else s2
    let s4 : ℚ × List String :=
      if inKz.killzone = some .NEW_YORK_AM
      then (s3.1 + 1, s3.2 ++ ["NY AM = highest probability"])
      else s3
    { score := s4.1, maxScore := some 11, tradeable := true
      reason := none, nextKillzone := none
      factors := s4.2, inKillzone := some inKz, inSilverBullet := some inSB
      sessionOpen := some sessionOpen }

/-- Result of `shouldSkipToday`. -/
structure SkipCheck where
  skip : Bool
  reason : Option String
deriving Repr, DecidableEq

/-- The hard-coded 2025 holiday list of `shouldSkipToday`, as UTC day
numbers (days since the epoch) of the source's ISO date strings. -/
def holidayDayNumbers : List ℕ :=
  [20089,  -- 2025-01-01 New Year
   20108,  -- 2025-01-20 MLK Day
   20136,  -- 2025-02-17 Presidents Day
   20196,  -- 2025-04-18 Good Friday
   20234,  -- 2025-05-26 Memorial Day
   20273,  -- 2025-07-04 Independence Day
   20332,  -- 2025-09-01 Labor Day
   20419,  -- 2025-11-27 Thanksgiving
   20447]  -- 2025-12-25 Christmas

/-- `KillzoneDetector.shouldSkipToday`: weekends and the configured
holiday dates never trade. -/
def shouldSkipToday (now : ℕ) : SkipCheck :=
  if utcDayOfWeek now = 0 ∨ utcDayOfWeek now = 6 then
    { skip := true, reason := some "Weekend - no institutional activity" }
  else if holidayDayNumbers.contains (utcDayNumber now) then
    { skip := true, reason := some "Major holiday - reduced liquidity" }
  else
    { skip := false, reason := none }

/-- Result of `getTradingWindowStatus` (the skip branch spreads the
`SkipCheck` fields into the result; the non-skip branch carries the
quality record and a recommendation line). -/
structure TradingWindowStatus where
  canTrade : Bool
  skip : Option Bool
  reason : Option String
  quality : Option KillzoneQuality
  currentTime : Option ℕ
  recommendation : Option String
deriving Repr, DecidableEq

/-- `KillzoneDetector.getTradingWindowStatus`. -/
def getTradingWindowStatus (cfg : Config) (now : ℕ) : TradingWindowStatus :=
  let skipCheck := shouldSkipToday now
  if skipCheck.skip then
    { canTrade := false, skip := some true, reason := skipCheck.reason
      quality := none, currentTime := none, recommendation := none }
  else
    let quality := getKillzoneQuality cfg now
    { canTrade := quality.tradeable, skip := none, reason := none
      quality := some quality, currentTime := some now
      recommendation := some (if quality.tradeable
        then "ACTIVE: " ++ String.intercalate ", " quality.factors
        else "WAIT: " ++ (quality.reason.getD "undefined")) }

/-! ### `src/tradeDecision.js` — `TradeDecisionEngine`

External collaborators (news filter, price-data fetcher, sentiment / ETF /
economic-calendar providers) are out of scope per the spec; their
already-fetched results are oracle fields of `DecisionInputs`.  The
engine's wall clock is the explicit `now` field.  The engine's mutable
state (`tradesToday`, `lastTradeDate`, `consecutiveWins`) is threaded
explicitly: `makeDecision` maps `(config, inputs, state)` to
`(Decision, state)`. -/

/-- Render a JS number that is an exact multiple of a small power of ten
(every score/threshold evaluated by this development); display-only. -/
def qRender (q : ℚ) : String :=
  if q.den = 1 then toString q.num
  else if (q * 10).den = 1 then qToFixed 1 q
  else if (q * 100).den = 1 then qToFixed 2 q
  else qToFixed 3 q

/-- Oracle result of `newsFilter.checkNewsBlackout()`. -/
structure NewsCheck where
  blackout : Bool
  event : Option String
  minutesUntil : Option ℤ
deriving Repr, DecidableEq

/-- Oracle volatility block of `marketData.volatility`. -/
structure Volatility where
  isVolatilityOK : Bool
  atrPercent : ℚ
deriving Repr, DecidableEq

/-- Oracle signal of an external data source (news sentiment, ETF flows,
economic calendar). -/
structure ExtSignal where
  aligned : Bool
  bias : Option Dir
  canTrade : Option Bool
  strongDisagreement : Bool
  reason : Option String
deriving Repr, DecidableEq

/-- Oracle result of `priceData.getAnalysisData()`. -/
structure MarketData where
  btcTicker : ℚ
  volatility : Volatility
  multiTimeframe : List (String × List Candle)
  btcCandles5m : List Candle
  ethCandles5m : List Candle
deriving Repr, DecidableEq

/-- All inputs of one `makeDecision` evaluation: the cursor (`now`) and
the external collaborators' already-fetched results (`none` models a
rejected or `null` fetch). -/
structure DecisionInputs where
  now : ℕ
  newsCheck : NewsCheck
  marketData : MarketData
  sentimentSignal : Option ExtSignal
  etfSignal : Option ExtSignal
  economicSignal : Option ExtSignal
deriving Repr, DecidableEq

/-- Aggregate block of `analyzeExternalData`. -/
structure ExtAggregate where
  bullishSignals : ℕ
  bearishSignals : ℕ
  overallBias : Dir
  alignedWithTrade : Bool
deriving Repr, DecidableEq

/-- Result of `analyzeExternalData`. -/
structure ExternalData where
  sentiment : Option ExtSignal
  etf : Option ExtSignal
  economic : Option ExtSignal
  aggregate : ExtAggregate
deriving Repr, DecidableEq

/-- `TradeDecisionEngine.analyzeExternalData`: keeps each enabled,
successfully fetched signal and aggregates their biases. -/
def analyzeExternalData (cfg : Config) (inp : DecisionInputs)
    (expectedDirection : Dir) : ExternalData :=
  let sentiment := if cfg.dsNewsSentimentEnabled then inp.sentimentSignal else none
  let etf := if cfg.dsEtfFlowsEnabled then inp.etfSignal else none
  let economic := if cfg.dsEconomicEnabled then inp.economicSignal else none
  let cnt : Option ExtSignal → Dir → ℕ := fun s d =>
    match s with
    | some v => if v.bias = some d then 1 else 0
    | none => 0
  let externalBullish := cnt sentiment .bullish + cnt etf .bullish + cnt economic .bullish
  let externalBearish := cnt sentiment .bearish + cnt etf .bearish + cnt economic .bearish
  { sentiment := sentiment, etf := etf, economic := economic
    aggregate :=
      { bullishSignals := externalBullish
        bearishSignals := externalBearish
        overallBias :=
          if externalBullish > externalBearish then .bullish
          else if externalBearish > externalBullish then .bearish
          else .neutral
        alignedWithTrade :=
          (expectedDirection = .bullish ∧ externalBullish ≥ externalBearish) ∨
          (expectedDirection = .bearish ∧ externalBearish ≥ externalBullish) } }

/-- Result of `validateEntryModels` (the `details` sub-objects accumulate
across the three model checks). -/
structure EntryModelsResult where
  validModel : Bool
  model : Option String
  winRateEstimate : ℚ
  reason : String
  detailsMmxm : Option MMXMResult
  detailsFvg : Option (FVGEntryResult × PDZoneResult)
  detailsJudasSwing : Option JudasResult
deriving Repr, DecidableEq

/-- Source zone strings (interpolated into the FVG entry reason). -/
def zoneName : Zone → String
  | .NEUTRAL => "NEUTRAL"
  | .PREMIUM => "PREMIUM"
  | .DISCOUNT => "DISCOUNT"
  | .EQUILIBRIUM => "EQUILIBRIUM"
  | .PREMIUM_EDGE => "PREMIUM_EDGE"
  | .DISCOUNT_EDGE => "DISCOUNT_EDGE"

/-- Model 3 of `validateEntryModels` (Judas swing) plus the fall-through
failure record. -/
def validateModels3 (cfg : Config) (now : ℕ) (btcCandles : List Candle)
    (expectedDirection : Dir) (mmxm? : Option MMXMResult)
    (fvg? : Option (FVGEntryResult × PDZoneResult)) :
    EntryModelsResult :=
  let judas? :=
    if cfg.emJudasEnabled then
      let sessionOpen := getSessionOpenInfo now
      if sessionOpen.withinSessionOpen then
        let sessionOpenIndex : ℤ :=
          (btcCandles.length : ℤ) - ((sessionOpen.minutesSinceOpen.getD 0) / 5 : ℕ) - 1
        some (sessionOpen, detectJudasSwing cfg btcCandles sessionOpenIndex expectedDirection)
      else none
    else none
  match judas? with
  | some (sessionOpen, judasSwing) =>
    if judasSwing.tradeable ∧ judasSwing.expectedReversal = some expectedDirection then
      { validModel := true, model := some "JUDAS_SWING"
        winRateEstimate := cfg.emJudasWinRate
        reason := "Judas swing at " ++ (sessionOpen.session.getD "undefined") ++ " open"
        detailsMmxm := mmxm?, detailsFvg := fvg?
        detailsJudasSwing := some judasSwing }
    else
      { validModel := false, model := none, winRateEstimate := 0
        reason := "No model conditions met"
        detailsMmxm := mmxm?, detailsFvg := fvg?
        detailsJudasSwing := some judasSwing }
  | none =>
    { validModel := false, model := none, winRateEstimate := 0
      reason := "No model conditions met"
      detailsMmxm := mmxm?, detailsFvg := fvg?
      detailsJudasSwing := none }

/-- Models 2 and 3 of `validateEntryModels` (FVG displacement entry, then
Judas swing). -/
def validateModels2 (cfg : Config) (now : ℕ) (btcCandles : List Candle)
    (expectedDirection : Dir) (mmxm? : Option MMXMResult) :
    Except String EntryModelsResult := do
  let fvg? ←
    if cfg.emFvgEnabled then do
      let fvgEntry ← isAtFVGEntry cfg btcCandles expectedDirection
      let pdZone := getPremiumDiscountZone cfg btcCandles
      pure (some (fvgEntry, pdZone))
    else pure none
  match fvg? with
  | some (fvgEntry, pdZone) =>
    let correctZone :=
      (expectedDirection = .bullish ∧ pdZone.zone.includesDiscount) ∨
      (expectedDirection = .bearish ∧ pdZone.zone.includesPremium)
    if fvgEntry.valid ∧ correctZone then
      return { validModel := true, model := some "FVG_DISPLACEMENT"
               winRateEstimate := cfg.emFvgWinRate
               reason := "FVG entry at " ++ zoneName pdZone.zone ++ " zone"
               detailsMmxm := mmxm?, detailsFvg := fvg?
               detailsJudasSwing := none }
    else return (validateModels3 cfg now btcCandles expectedDirection mmxm? fvg?)
  | none => return (validateModels3 cfg now btcCandles expectedDirection mmxm? none)

/-- `TradeDecisionEngine.validateEntryModels`: MMXM, then FVG entry in the
correct premium/discount zone, then Judas swing near a session open.
Propagates the exceptions of `isAtFVGEntry`. -/
def validateEntryModels (cfg : Config) (now : ℕ)
    (btcCandles ethCandles : List Candle) (expectedDirection : Dir) :
    Except String EntryModelsResult := do
  let _ := ethCandles  -- parameter unused by the source function body
  -- Model 1: MMXM
  let mmxm? :=
    if cfg.emMmxmEnabled
    then some (analyzeMMXMCycle cfg btcCandles expectedDirection)
    else none
  match mmxm? with
  | some mmxmAnalysis =>
    if mmxmAnalysis.tradeable ∧ mmxmAnalysis.direction = expectedDirection then
      return { validModel := true, model := some "MMXM"
               winRateEstimate := cfg.emMmxmWinRate
               reason := mmxmAnalysis.entryReason
               detailsMmxm := some mmxmAnalysis, detailsFvg := none
               detailsJudasSwing := none }
    else validateModels2 cfg now btcCandles expectedDirection mmxm?
  | none => validateModels2 cfg now btcCandles expectedDirection none

/-- A confluence factor label.  The source pushes plain strings; the
payload constructors carry the interpolated bias of the external-data
factor names (`SENTIMENT(BULLISH)` etc.), and the `*Missing` constructors
are the distinct names used in `missingFactors` for the external factors. -/
inductive ConfFactor where
  | HTF_BIAS
  | KILLZONE
  | SILVER_BULLET
  | LIQUIDITY_SWEPT
  | FVG
  | PD_ZONE
  | SMT
  | NEWS_CLEAR
  | SENTIMENT (bias : String)
  | ETF_FLOWS (bias : String)
  | ECONOMIC (bias : String)
  | NEWS_SENTIMENT_MISSING
  | ETF_FLOWS_MISSING
  | ECONOMIC_BIAS_MISSING
deriving Repr, DecidableEq

/-- The source string of a factor label. -/
def ConfFactor.render : ConfFactor → String
  | .HTF_BIAS => "HTF_BIAS"
  | .KILLZONE => "KILLZONE"
  | .SILVER_BULLET => "SILVER_BULLET"
  | .LIQUIDITY_SWEPT => "LIQUIDITY_SWEPT"
  | .FVG => "FVG"
  | .PD_ZONE => "PD_ZONE"
  | .SMT => "SMT"
  | .NEWS_CLEAR => "NEWS_CLEAR"
  | .SENTIMENT b => "SENTIMENT(" ++ b ++ ")"
  | .ETF_FLOWS b => "ETF_FLOWS(" ++ b ++ ")"
  | .ECONOMIC b => "ECONOMIC(" ++ b ++ ")"
  | .NEWS_SENTIMENT_MISSING => "NEWS_SENTIMENT"
  | .ETF_FLOWS_MISSING => "ETF_FLOWS"
  | .ECONOMIC_BIAS_MISSING => "ECONOMIC_BIAS"

/-- Result of `calculateConfluence`. -/
structure ConfluenceResult where
  score : ℚ
  maxScore : ℚ
  presentFactors : List ConfFactor
  missingFactors : List ConfFactor
  isAPlus : Bool
deriving Repr, DecidableEq

/-- The detector-independent analysis inputs handed to
`calculateConfluence` by `makeDecision` (its `analysis` argument). -/
structure ConfAnalysis where
  htfBias : HTFBiasResult
  killzoneStatus : TradingWindowStatus
  liquiditySweep : SweepCheckResult
  entryModels : EntryModelsResult
  newsCheck : NewsCheck
  volatility : Volatility
  externalData : ExternalData
deriving Repr, DecidableEq

/-- `TradeDecisionEngine.calculateConfluence`: the weighted factor
accumulation (internal ICT factors, then the external-data factors), with
the final score rounded to one decimal (`Math.round(score * 10) / 10`).
Propagates the exceptions of `isAtFVGEntry` / `checkSMTConfirmation`. -/
def calculateConfluence (cfg : Config) (a : ConfAnalysis)
    (btcCandles ethCandles : List Candle) (expectedDirection : Dir) :
    Except String ConfluenceResult := do
  let st0 : ℚ × List ConfFactor × List ConfFactor := (0, [], [])
  -- HTF Bias Aligned
  let st1 :=
    if a.htfBias.aligned
    then (st0.1 + cfg.wHtfBiasAligned, st0.2.1 ++ [.HTF_BIAS], st0.2.2)
    else (st0.1, st0.2.1, st0.2.2 ++ [.HTF_BIAS])
  -- Killzone Active (with the nested Silver-Bullet bonus)
  let st2 :=
    if a.killzoneStatus.canTrade then
      let stk := (st1.1 + cfg.wKillzoneActive, st1.2.1 ++ [.KILLZONE], st1.2.2)
      if (a.killzoneStatus.quality.bind KillzoneQuality.inSilverBullet).map
          SilverBulletResult.active = some true
      then (stk.1 + 1/2, stk.2.1 ++ [.SILVER_BULLET], stk.2.2)
      else stk
    else (st1.1, st1.2.1, st1.2.2 ++ [.KILLZONE])
  -- Liquidity Swept
  let st3 :=
    if a.liquiditySweep.swept
    then (st2.1 + cfg.wLiquiditySwept, st2.2.1 ++ [.LIQUIDITY_SWEPT], st2.2.2)
    else (st2.1, st2.2.1, st2.2.2 ++ [.LIQUIDITY_SWEPT])
  -- FVG Present
  let fvgEntry ← isAtFVGEntry cfg btcCandles expectedDirection
  let st4 :=
    if fvgEntry.valid
    then (st3.1 + cfg.wFvgPresent, st3.2.1 ++ [.FVG], st3.2.2)
    else (st3.1, st3.2.1, st3.2.2 ++ [.FVG])
  -- Premium/Discount Zone
  let pdZone := getPremiumDiscountZone cfg btcCandles
  let correctZone :=
    (expectedDirection = .bullish ∧ pdZone.zone.includesDiscount) ∨
    (expectedDirection = .bearish ∧ pdZone.zone.includesPremium)
  let st5 :=
    if correctZone
    then (st4.1 + cfg.wPremiumDiscountZone, st4.2.1 ++ [.PD_ZONE], st4.2.2)
    else (st4.1, st4.2.1, st4.2.2 ++ [.PD_ZONE])
  -- SMT Divergence
  let smtCheck ← checkSMTConfirmation cfg btcCandles ethCandles expectedDirection
  let st6 :=
    if smtCheck.confirmed
    then (st5.1 + cfg.wSmtDivergence, st5.2.1 ++ [.SMT], st5.2.2)
    else (st5.1, st5.2.1, st5.2.2 ++ [.SMT])
  -- News Clear
  let st7 :=
    if ¬ a.newsCheck.blackout
    then (st6.1 + cfg.wNewsClear, st6.2.1 ++ [.NEWS_CLEAR], st6.2.2)
    else (st6.1, st6.2.1, st6.2.2 ++ [.NEWS_CLEAR])
  -- News Sentiment Aligned
  let st8 :=
    match a.externalData.sentiment with
    | some s =>
      if s.aligned
      then (st7.1 + jsOrQ? cfg.wNewsSentimentAligned (3/2),
            st7.2.1 ++ [ConfFactor.SENTIMENT ((s.bias.map Dir.render).getD "undefined")], st7.2.2)
      else (st7.1, st7.2.1, st7.2.2 ++ [ConfFactor.NEWS_SENTIMENT_MISSING])
    | none => st7
  -- ETF Flows Aligned
  let st9 :=
    match a.externalData.etf with
    | some s =>
      if s.aligned
      then (st8.1 + jsOrQ? cfg.wEtfFlowsAligned 2,
            st8.2.1 ++ [ConfFactor.ETF_FLOWS ((s.bias.map Dir.render).getD "undefined")], st8.2.2)
      else (st8.1, st8.2.1, st8.2.2 ++ [ConfFactor.ETF_FLOWS_MISSING])
    | none => st8
  -- Economic Bias Aligned
  let st10 :=
    match a.externalData.economic with
    | some s =>
      if s.aligned
      then (st9.1 + jsOrQ? cfg.wEconomicBiasAligned 1,
            st9.2.1 ++ [ConfFactor.ECONOMIC ((s.bias.map Dir.render).getD "undefined")], st9.2.2)
      else (st9.1, st9.2.1, st9.2.2 ++ [ConfFactor.ECONOMIC_BIAS_MISSING])
    | none => st9
  return { score := (jsRound (st10.1 * 10) : ℚ) / 10
           maxScore := qsum ([cfg.wHtfBiasAligned, cfg.wKillzoneActive,
             cfg.wLiquiditySwept, cfg.wFvgPresent, cfg.wOrderBlockPresent,
             cfg.wSmtDivergence, cfg.wPremiumDiscountZone, cfg.wNewsClear] ++
             cfg.wNewsSentimentAligned.toList ++ cfg.wEtfFlowsAligned.toList ++
             cfg.wEconomicBiasAligned.toList)
           presentFactors := st10.2.1
           missingFactors := st10.2.2
           isAPlus := st10.1 ≥ cfg.conflAPlusScore }

/-- Decision action (`'NO_TRADE' | 'LONG' | 'SHORT'`); named `TradeAction`
because Mathlib already declares `Action`. -/
inductive TradeAction where
  | NO_TRADE
  | LONG
  | SHORT
deriving Repr, DecidableEq

/-- Source string of an action. -/
def TradeAction.render : TradeAction → String
  | .NO_TRADE => "NO_TRADE"
  | .LONG => "LONG"
  | .SHORT => "SHORT"

/-- The `decision.analysis` accumulator (fields become `some` as the
corresponding pipeline step runs). -/
structure DecisionAnalysis where
  news : Option NewsCheck
  killzone : Option TradingWindowStatus
  price : Option ℚ
  volatility : Option Volatility
  htfBias : Option HTFBiasResult
  externalData : Option ExternalData
  liquiditySweep : Option SweepCheckResult
  entryModels : Option EntryModelsResult
  confluence : Option ConfluenceResult
deriving Repr, DecidableEq

/-- The Decision value returned by `makeDecision` (`timestamp` is the
evaluation cursor in epoch milliseconds, standing for the ISO string the
source stores). -/
structure Decision where
  timestamp : ℕ
  action : TradeAction
  direction : Option Dir
  confidence : ℚ
  confluenceScore : ℚ
  reasons : List String
  analysis : DecisionAnalysis
  error : Option String
deriving Repr, DecidableEq

/-- The engine's mutable state (`this.tradesToday`, `this.lastTradeDate`
as a UTC day number, `this.consecutiveWins`). -/
structure EngineState where
  tradesToday : ℕ
  lastTradeDate : Option ℕ
  consecutiveWins : ℕ
deriving Repr, DecidableEq

/-- The empty `decision.analysis`. -/
def emptyAnalysis : DecisionAnalysis :=
  { news := none, killzone := none, price := none, volatility := none
    htfBias := none, externalData := none, liquiditySweep := none
    entryModels := none, confluence := none }

/-- Steps 10 and the final trade block of `makeDecision` (split out so the
main definition mirrors the source's gate sequence readably). -/
def makeDecisionTradeStep (cfg : Config) (inp : DecisionInputs)
    (st : EngineState) (d : Decision) (expectedDirection : Dir)
    (htfBias : HTFBiasResult) (entryModels : EntryModelsResult)
    (confluence : ConfluenceResult) : Decision × EngineState :=
  -- STEP 10: Daily Trade Limit Check
  let today := utcDayNumber inp.now
  let st1 :=
    if st.lastTradeDate ≠ some today
    then { st with tradesToday := 0, lastTradeDate := some today }
    else st
  let isAPlusSetup := confluence.score ≥ cfg.conflAPlusScore
  if st1.tradesToday ≥ cfg.maxTradesPerDay ∧
      (¬ isAPlusSetup ∨ ¬ cfg.allowSecondTradeIfAPlus) then
    ({ d with reasons := d.reasons ++
        ["DAILY LIMIT: Already traded today (" ++ toString st1.tradesToday ++ ")"] },
     st1)
  else
    let d1 :=
      if st1.tradesToday ≥ cfg.maxTradesPerDay
      then { d with reasons := d.reasons ++
              ["A+ SETUP (" ++ qRender confluence.score ++ "/10): Allowing second trade"] }
      else d
    -- DECISION: TRADE!
    let action := if expectedDirection = .bullish then TradeAction.LONG else TradeAction.SHORT
    ({ d1 with
        action := action
        confidence := entryModels.winRateEstimate
        reasons := d1.reasons ++
          ["✓ TRADE SIGNAL: " ++ action.render,
           "✓ Model: " ++ (entryModels.model.getD "null"),
           "✓ Confluence: " ++ qRender confluence.score ++ "/10",
           "✓ Win Rate Est: " ++ qToFixed 0 (entryModels.winRateEstimate * 100) ++ "%",
           "✓ HTF Bias: " ++ htfBias.overallBias.render ++ " (" ++
             qToFixed 0 (htfBias.alignment * 100) ++ "% aligned)"] },
     { st1 with tradesToday := st1.tradesToday + 1 })

/-- The state-independent prefix of `makeDecision` (steps 1-9; the
engine's mutable daily-trade state is first read in step 10).  `.inl d` is
an early NO_TRADE (or caught-error) exit; `.inr` carries the accumulated
decision and the step-10 context. -/
def makeDecisionPrefix (cfg : Config) (inp : DecisionInputs) :
    Decision ⊕ (Decision × Dir × HTFBiasResult × EntryModelsResult × ConfluenceResult) :=
  let d0 : Decision :=
    { timestamp := inp.now, action := .NO_TRADE, direction := none
      confidence := 0, confluenceScore := 0, reasons := []
      analysis := emptyAnalysis, error := none }
  -- STEP 1: Trading Day Check
  let dayCheck := shouldSkipToday inp.now
  if dayCheck.skip then
    .inl { d0 with reasons := ["SKIP: " ++ (dayCheck.reason.getD "undefined")] }
  else
    -- STEP 2: News Blackout Check
    let newsCheck := inp.newsCheck
    let d2 := { d0 with analysis := { d0.analysis with news := some newsCheck } }
    if newsCheck.blackout then
      .inl { d2 with reasons := d2.reasons ++
          ["NEWS BLACKOUT: " ++ (newsCheck.event.getD "undefined") ++ " in " ++
            (match newsCheck.minutesUntil with
             | some m => toString m
             | none => "undefined") ++ "min"] }
    else
      -- STEP 3: Killzone Check
      let killzoneStatus := getTradingWindowStatus cfg inp.now
      let d3 := { d2 with analysis := { d2.analysis with killzone := some killzoneStatus } }
      if ¬ killzoneStatus.canTrade then
        let r1 := "OUTSIDE KILLZONE: " ++
          (killzoneStatus.reason.getD "Wait for London/NY session")
        let rs :=
          match killzoneStatus.quality.bind KillzoneQuality.nextKillzone with
          | some nk => [r1, "Next: " ++ nk.name ++ " in " ++ nk.hoursUntil ++ "h"]
          | none => [r1]
        .inl { d3 with reasons := d3.reasons ++ rs }
      else
        -- STEP 4: Fetch Market Data (oracle)
        let marketData := inp.marketData
        let d4 := { d3 with analysis := { d3.analysis with price := some marketData.btcTicker } }
        -- STEP 5: Volatility Filter
        let d5 := { d4 with analysis := { d4.analysis with volatility := some marketData.volatility } }
        if ¬ marketData.volatility.isVolatilityOK then
          let atrPct := qToFixed 2 marketData.volatility.atrPercent
          let r :=
            if marketData.volatility.atrPercent < cfg.volMinAtrPercent
            then "LOW VOLATILITY: ATR " ++ atrPct ++ "% - no edge in quiet market"
            else "HIGH VOLATILITY: ATR " ++ atrPct ++ "% - too unpredictable"
          .inl { d5 with reasons := d5.reasons ++ [r] }
        else
          -- STEP 6: HTF Bias Analysis
          let htfBias := getHTFBiasAlignment cfg marketData.multiTimeframe
          let d6 := { d5 with analysis := { d5.analysis with htfBias := some htfBias } }
          if ¬ htfBias.aligned ∨ htfBias.overallBias = .neutral then
            .inl { d6 with reasons := d6.reasons ++
                ["NO HTF ALIGNMENT: " ++ toString htfBias.bullishCount ++ "B/" ++
                  toString htfBias.bearishCount ++ "Be - mixed signals"] }
          else
            let expectedDirection := htfBias.overallBias
            let d6b := { d6 with direction := some expectedDirection }
            -- STEP 6.5: External data analysis
            let externalData := analyzeExternalData cfg inp expectedDirection
            let d65 := { d6b with analysis := { d6b.analysis with externalData := some externalData } }
            if (externalData.economic.bind ExtSignal.canTrade) = some false then
              .inl { d65 with reasons := d65.reasons ++
                  ["ECONOMIC EVENT BLACKOUT: " ++
                    ((externalData.economic.bind ExtSignal.reason).getD "undefined")] }
            else if cfg.dsEtfBlockOnStrongDisagreement ∧
                (externalData.etf.map ExtSignal.strongDisagreement = some true) then
              .inl { d65 with reasons := d65.reasons ++
                  ["ETF FLOW DISAGREEMENT: " ++
                    ((externalData.etf.bind ExtSignal.reason).getD "undefined"),
                   "ETF Signal: " ++
                    (((externalData.etf.bind ExtSignal.bias).map Dir.render).getD "undefined") ++
                    " vs Trade: " ++ expectedDirection.render] }
            else
              -- STEP 7: Liquidity sweep check (mandatory)
              let btcCandles := marketData.btcCandles5m
              let liquiditySweep := hasRecentLiquiditySweep cfg btcCandles expectedDirection
              let d7 := { d65 with analysis := { d65.analysis with liquiditySweep := some liquiditySweep } }
              if ¬ liquiditySweep.swept then
                .inl { d7 with reasons := d7.reasons ++
                    ["NO LIQUIDITY SWEEP: " ++ (liquiditySweep.reason.getD "undefined"),
                     "MANDATORY: Must sweep liquidity before entry"] }
              else
                -- STEP 8: Entry model validation
                match validateEntryModels cfg inp.now btcCandles
                    marketData.ethCandles5m expectedDirection with
                | .error e =>
                  .inl { d7 with reasons := d7.reasons ++ ["ERROR: " ++ e]
                                 error := some e }
                | .ok entryModels =>
                  let d8 := { d7 with analysis := { d7.analysis with entryModels := some entryModels } }
                  if ¬ entryModels.validModel then
                    .inl { d8 with reasons := d8.reasons ++
                        ["NO VALID ENTRY MODEL: " ++ entryModels.reason] }
                  else
                    -- STEP 9: Confluence score
                    match calculateConfluence cfg
                        { htfBias := htfBias, killzoneStatus := killzoneStatus
                          liquiditySweep := liquiditySweep, entryModels := entryModels
                          newsCheck := newsCheck, volatility := marketData.volatility
                          externalData := externalData }
                        btcCandles marketData.ethCandles5m expectedDirection with
                    | .error e =>
                      .inl { d8 with reasons := d8.reasons ++ ["ERROR: " ++ e]
                                     error := some e }
                    | .ok confluence =>
                      let d9 := { d8 with
                        confluenceScore := confluence.score
                        analysis := { d8.analysis with confluence := some confluence } }
                      if confluence.score < cfg.conflMinScoreToTrade then
                        .inl { d9 with reasons := d9.reasons ++
                            ["LOW CONFLUENCE: " ++ qRender confluence.score ++ "/" ++
                              qRender cfg.conflMinScoreToTrade ++ " required",
                             "Present: " ++ String.intercalate ", "
                               (confluence.presentFactors.map ConfFactor.render),
                             "Missing: " ++ String.intercalate ", "
                               (confluence.missingFactors.map ConfFactor.render)] }
                      else
                        .inr (d9, expectedDirection, htfBias, entryModels, confluence)

/-- `TradeDecisionEngine.makeDecision`: the ordered gate sequence
(calendar, news blackout, killzone, volatility, HTF bias, external-data
blackouts, mandatory sweep, entry model, confluence minimum, daily trade
limit), each gate short-circuiting to a NO_TRADE decision with a reason;
thrown exceptions are caught and surface as an `ERROR:` reason on the
decision (the source's `try/catch`).  Steps 1-9 never read the engine
state, so they are factored into `makeDecisionPrefix`; the state-touching
step 10 and the final trade block are `makeDecisionTradeStep`. -/
def makeDecision (cfg : Config) (inp : DecisionInputs) (st : EngineState) :
    Decision × EngineState :=
  match makeDecisionPrefix cfg inp with
  | .inl d => (d, st)
  | .inr (d9, expectedDirection, htfBias, entryModels, confluence) =>
    makeDecisionTradeStep cfg inp st d9 expectedDirection htfBias entryModels confluence

/-! ### `src/backtest/runner.js` — `Backtester` -/

/-- Per-day result of `Backtester.simulateDay` (the not-traded early
returns carry only `traded` and `reason`). -/
structure DayResult where
  traded : Bool
  reason : Option String
  prediction : Option Dir
  actual : Option Dir
  isWin : Option Bool
  entryPrice : Option ℚ
  entryTime : Option ℕ
  decisionHour : Option ℕ
  dayOpen : Option ℚ
  dayClose : Option ℚ
  percentMove : Option String
  confluence : Option ℚ
  confluenceDetails : Option String
  model : Option String
  hasSMT : Option Bool
  hasLiquiditySweep : Option Bool
  htfBias : Option Dir
  candlesUsedForAnalysis : Option ℕ
deriving Repr, DecidableEq

/-- A not-traded `simulateDay` result. -/
def DayResult.notTraded (r : String) : DayResult :=
  { traded := false, reason := some r, prediction := none, actual := none
    isWin := none, entryPrice := none, entryTime := none, decisionHour := none
    dayOpen := none, dayClose := none, percentMove := none, confluence := none
    confluenceDetails := none, model := none, hasSMT := none
    hasLiquiditySweep := none, htfBias := none, candlesUsedForAnalysis := none }

/-- The killzone-hours filter of `simulateDay`
(`(hour >= 7 && hour <= 10) || (hour >= 13 && hour < decisionHour)`). -/
def killzoneHour (decisionHour : ℕ) (c : Candle) : Bool :=
  (7 ≤ utcHour c.timestamp ∧ utcHour c.timestamp ≤ 10) ∨
  (13 ≤ utcHour c.timestamp ∧ utcHour c.timestamp < decisionHour)

/-- The decision-relevant outcome of `simulateDay`'s analysis steps
(everything the traded-day record needs besides entry and day-outcome
data). -/
structure DayDecision where
  expectedDirection : Dir
  confluence : ℚ
  confluenceDetails : List String
  mmxmTradeable : Bool
  hasSMT : Bool
  hasLiquiditySweep : Bool
  htfOverall : Dir
  candlesUsed : ℕ
deriving Repr, DecidableEq

/-- Steps 3-9 of `simulateDay`: the trading decision computed from the
causally restricted views only (killzone candles, completed HTF candles,
the SMT pair's killzone candles).  `.inl reason` is a not-traded exit. -/
def simulateDayAnalyze (cfg : Config)
    (killzoneCandles filtered4h filtered1d smtKillzone : List Candle) :
    Except String (String ⊕ DayDecision) := do
  if killzoneCandles.length < 15 then
    return .inl "Insufficient killzone data before decision"
  else
  -- STEP 5: HTF bias (with optional LTF fallback)
  let htfBias := getHTFBiasAlignment cfg [("4h", filtered4h), ("1d", filtered1d)]
  let dir? : Option Dir :=
    if htfBias.overallBias = .neutral ∧ cfg.htfAllowNeutralBias then
      let ltfBias := determineBias cfg killzoneCandles
      if ltfBias.bias ≠ .neutral then some ltfBias.bias else none
    else if ¬ htfBias.aligned ∧ ¬ cfg.htfAllowNeutralBias then none
    else some htfBias.overallBias
  match dir? with
  | none =>
    if htfBias.overallBias = .neutral ∧ cfg.htfAllowNeutralBias then
      return .inl "No HTF or LTF alignment"
    else
      return .inl "No HTF alignment"
  | some expectedDirection =>
  -- STEP 6: liquidity sweep (optional unless strict mode)
  let liquiditySweep := hasRecentLiquiditySweep cfg killzoneCandles expectedDirection
  if cfg.liqSweepRequiredStrict ∧ ¬ liquiditySweep.swept then
    return .inl "No liquidity sweep (strict mode)"
  else
  -- STEP 7: entry model
  let fvgEntry ← isAtFVGEntry cfg killzoneCandles expectedDirection
  let mmxmAnalysis := analyzeMMXMCycle cfg killzoneCandles expectedDirection
  -- `CONFIG.ENTRY_MODELS?.FVG_ONLY || true` is always truthy
  let fvgOnlyMode := true
  if fvgOnlyMode ∧ ¬ fvgEntry.valid then
    return .inl "No FVG entry (FVG-only mode)"
  else if ¬ fvgOnlyMode ∧ ¬ fvgEntry.valid ∧ ¬ mmxmAnalysis.tradeable then
    return .inl "No valid entry model"
  else
  -- STEP 8: SMT check against the paired asset's killzone candles
  let hasSMT ←
    if smtKillzone.length = killzoneCandles.length then do
      let smtCheck ← checkSMTConfirmation cfg killzoneCandles smtKillzone expectedDirection
      pure smtCheck.confirmed
    else pure false
  if cfg.smtRequired ∧ ¬ hasSMT then
    return .inl "No SMT divergence (SMT required mode)"
  else
  -- STEP 9: relaxed confluence scoring
  let c1 : ℚ × List String :=
    if htfBias.aligned ∧ htfBias.overallBias ≠ .neutral then (2, ["HTF"])
    else if expectedDirection ≠ .neutral then (1, ["LTF"])
    else (0, [])
  let c2 := if liquiditySweep.swept then (c1.1 + 2, c1.2 ++ ["SWEEP"]) else c1
  let c3 := if fvgEntry.valid then (c2.1 + 3/2, c2.2 ++ ["FVG"]) else c2
  let c4 := if mmxmAnalysis.tradeable then (c3.1 + 2, c3.2 ++ ["MMXM"]) else c3
  let c5 := if hasSMT then (c4.1 + 3/2, c4.2 ++ ["SMT"]) else c4
  let confluence := c5.1
  let minConfluence := jsOrQ cfg.conflMinScoreToTrade 7
  if confluence < minConfluence then
    return .inl ("Low confluence: " ++ qToFixed 1 confluence ++
      " (need " ++ qRender minConfluence ++ ")")
  else
    return .inr
      { expectedDirection := expectedDirection
        confluence := confluence
        confluenceDetails := c5.2
        mmxmTradeable := mmxmAnalysis.tradeable
        hasSMT := hasSMT
        hasLiquiditySweep := liquiditySweep.swept
        htfOverall := htfBias.overallBias
        candlesUsed := killzoneCandles.length }

/-- `Backtester.simulateDay` (realistic timing, no look-ahead): decide at
`decisionHour` from candles at or before the decision candle only, enter
at the open of the *next* candle, resolve against the day's open/close.
The analysis steps (3-9) live in `simulateDayAnalyze`, fed exclusively
with the causally restricted candle views built in steps 2-4. -/
def simulateDay (cfg : Config) (dayCandles : List Candle)
    (htf4h htf1d : List Candle) (smtDayCandles : List Candle)
    (decisionHour : ℕ := 15) : Except String DayResult := do
  -- STEP 1: the decision point candle
  match dayCandles.find? (fun c => decisionHour ≤ utcHour c.timestamp) with
  | none => return DayResult.notTraded "No candle at decision hour"
  | some decisionPoint =>
    let decisionTimestamp := decisionPoint.timestamp
    -- STEP 2: only candles at or before the decision point
    let availableCandles := dayCandles.filter (fun c => c.timestamp ≤ decisionTimestamp)
    -- STEP 3: killzone candles from available data only
    let killzoneCandles := availableCandles.filter (killzoneHour decisionHour)
    -- STEP 4: only HTF candles fully closed before the decision
    let filtered4h := sliceLastN
      (htf4h.filter (fun c => c.timestamp + 4 * 60 * 60 * 1000 ≤ decisionTimestamp)) 100
    let filtered1d := sliceLastN
      (htf1d.filter (fun c => utcDayNumber c.timestamp < utcDayNumber decisionTimestamp)) 60
    -- STEP 8's candle view for the SMT pair
    let smtAvailable := smtDayCandles.filter (fun c => c.timestamp ≤ decisionTimestamp)
    let smtKillzone := smtAvailable.filter (killzoneHour decisionHour)
    -- STEPS 3-9: the decision itself
    match ← simulateDayAnalyze cfg killzoneCandles filtered4h filtered1d smtKillzone with
    | .inl reason => return DayResult.notTraded reason
    | .inr dec =>
      -- STEP 10: entry at the open of the first candle after the decision candle
      let decisionCandle := (availableCandles.getLastD default)
      let nextCandle? := dayCandles.find? (fun c => c.timestamp > decisionCandle.timestamp)
      let entry : Candle × ℚ :=
        match nextCandle? with
        | some entryCandle => (entryCandle, entryCandle.opn)
        | none => (decisionCandle, decisionCandle.close)
      -- STEP 11: outcome vs the day's open/close
      let dayClose := ((lastCandle? dayCandles).getD default).close
      let dayOpen := ((dayCandles.head?).getD default).opn
      let actualDirection : Dir := if dayClose > dayOpen then .bullish else .bearish
      return { traded := true
               reason := none
               prediction := some dec.expectedDirection
               actual := some actualDirection
               isWin := some (actualDirection = dec.expectedDirection)
               entryPrice := some entry.2
               entryTime := some entry.1.timestamp
               decisionHour := some decisionHour
               dayOpen := some dayOpen
               dayClose := some dayClose
               percentMove := some (qToFixed 2 ((dayClose - dayOpen) / dayOpen * 100))
               confluence := some dec.confluence
               confluenceDetails := some (String.intercalate "+" dec.confluenceDetails)
               model := some (if dec.mmxmTradeable then "MMXM" else "FVG")
               hasSMT := some dec.hasSMT
               hasLiquiditySweep := some dec.hasLiquiditySweep
               htfBias := some dec.htfOverall
               candlesUsedForAnalysis := some dec.candlesUsed }

/-- The causally-reachable projection of a day result: the traded flag,
the predicted direction and the entry price (the other fields — actual
outcome, win flag, day close — deliberately read the full day). -/
def DayResult.decisionTriple (r : DayResult) :
    Bool × Option Dir × Option ℚ := (r.traded, r.prediction, r.entryPrice)

/-- The streak accumulation of `Backtester.runBacktest` over the sequence
of traded-day outcomes (`true` = win): per traded day the code increments
the current streak, resets the opposite streak and folds the running
maximum, starting from zeroed counters. -/
def streaksGo : List Bool → ℕ → ℕ → ℕ → ℕ → ℕ × ℕ
  | [], _, _, mw, ml => (mw, ml)
  | o :: rest, cw, cl, mw, ml =>
    if o then streaksGo rest (cw + 1) 0 (max mw (cw + 1)) ml
    else streaksGo rest 0 (cl + 1) mw (max ml (cl + 1))

/-- `(maxConsecutiveWins, maxConsecutiveLosses)` of `runBacktest`. -/
def backtestStreaks (outcomes : List Bool) : ℕ × ℕ :=
  streaksGo outcomes 0 0 0 0

/-- Spec-side naive scan (`§8 Scenario E`): the length of the initial
constant-`b` run of a list. -/
def prefixRun (b : Bool) : List Bool → ℕ
  | [] => 0
  | x :: xs => if x = b then prefixRun b xs + 1 else 0

/-- Spec-side naive scan: the true longest run of consecutive `b`s,
as the maximum of the initial-run lengths over all suffixes. -/
def longestRun (b : Bool) : List Bool → ℕ
  | [] => 0
  | x :: xs => max (prefixRun b (x :: xs)) (longestRun b xs)

/-! ### Concrete data for witnesses and counterexamples -/

/-- A concrete configuration in the shape of `config/settings.js` (the
checked-in default values where a claim depends on them; witnesses that
need other thresholds override individual fields). -/
def sampleConfig : Config :=
  { fvgMinSizePercent := 15/100
    fvgMaxSizePercent := 3/2
    fvgRequireDisplacement := false
    fvgDisplacementMinSize := 3/10
    liqEqualTolerance := 5/100
    liqSweepConfirmationCandles := 3
    liqMinPoolTouches := 2
    liqSweepRequiredStrict := false
    swingLookback := 5
    swingLookbackHTF := 3
    pdPremiumThreshold := 7/10
    pdDiscountThreshold := 3/10
    pdEquilibriumBuffer := 1/10
    smtCorrelationThreshold := 7/10
    smtMinDivergencePercent := 1/10
    smtDivergenceLookback := 20
    smtRequired := false
    mmxmMinManipulationPercent := 3/10
    htfMinAlignedCount := 1
    htfAllowNeutralBias := false
    conflMinScoreToTrade := 7
    conflAPlusScore := 9
    wHtfBiasAligned := 2
    wKillzoneActive := 1
    wLiquiditySwept := 2
    wFvgPresent := 1
    wOrderBlockPresent := 1
    wSmtDivergence := 3/2
    wPremiumDiscountZone := 1
    wNewsClear := 1/2
    wNewsSentimentAligned := none
    wEtfFlowsAligned := none
    wEconomicBiasAligned := none
    maxTradesPerDay := 1
    allowSecondTradeIfAPlus := true
    emMmxmEnabled := true
    emMmxmWinRate := 68/100
    emFvgEnabled := true
    emFvgWinRate := 65/100
    emJudasEnabled := true
    emJudasWinRate := 70/100
    kzAsiaEnabled := false
    kzAsiaStart := 0
    kzAsiaEnd := 4 * 60
    kzAsiaDescription := "Asia session"
    kzLondonEnabled := true
    kzLondonStart := 7 * 60
    kzLondonEnd := 10 * 60
    kzLondonDescription := "London open"
    kzNyAmEnabled := true
    kzNyAmStart := 13 * 60
    kzNyAmEnd := 16 * 60
    kzNyAmDescription := "New York AM"
    kzNyPmEnabled := false
    kzNyPmStart := 18 * 60
    kzNyPmEnd := 20 * 60
    kzNyPmDescription := "New York PM"
    kzSilverBullet := []
    volMinAtrPercent := 1/2
    dsNewsSentimentEnabled := false
    dsEtfFlowsEnabled := false
    dsEtfBlockOnStrongDisagreement := false
    dsEconomicEnabled := false }

/-- Shorthand candle constructor (timestamp, open, high, low, close;
volume 0). -/
def mkCandle (t : ℕ) (o h l c : ℚ) : Candle :=
  { timestamp := t, opn := o, high := h, low := l, close := c, volume := 0 }

/-! ## Claims -/

/-- C2 — Swing confirmation delay: a swing point returned by the online
`identifySwings` has at least `lookback` candles on each side inside the
series, and at least `lookback` candles strictly after it that lie
strictly before the final (in-progress) candle: `index + lookback + 2 ≤
length`.  In particular the confirmation window `index+1 … index+lookback`
never touches the last candle, and no unconfirmed swing is ever
returned. -/
theorem swing_confirmation_delay (candles : List Candle) (lookback : ℕ)
    (s : SwingPoint)
    (h : s ∈ (identifySwings candles lookback true).1 ∨
         s ∈ (identifySwings candles lookback true).2) :
    lookback ≤ s.index ∧ s.index + lookback + 2 ≤ candles.length := by
  unfold identifySwings at h
  simp only [List.mem_filterMap] at h
  rcases h with ⟨i, hi, hs⟩ | ⟨i, hi, hs⟩ <;>
  · obtain ⟨h1, h2⟩ := mem_loopRange hi
    simp only [if_true] at h2
    split at hs
    · rw [Option.some_inj] at hs
      subst hs
      exact ⟨h1, by show i + lookback + 2 ≤ candles.length; omega⟩
    · exact absurd hs (by simp)

/-- Concrete series for the C2 witness (lookback 1; index 1 is a
confirmed swing high). -/
def swingCandles : List Candle :=
  [mkCandle 0 1 1 1 1, mkCandle 1 5 5 5 5, mkCandle 2 2 2 2 2,
   mkCandle 3 3 3 3 3, mkCandle 4 4 4 4 4]

/-- The swing point that `identifySwings swingCandles 1 true` confirms. -/
def sW : SwingPoint :=
  { index := 1, price := 5, timestamp := 1, candle := mkCandle 1 5 5 5 5
    confirmedAt := 2 }

/-- C2 witness: a concrete online swing satisfying the delay bound. -/
theorem swing_confirmation_delay_witness :
    (sW ∈ (identifySwings swingCandles 1 true).1 ∨
      sW ∈ (identifySwings swingCandles 1 true).2) ∧
    (1 ≤ sW.index ∧ sW.index + 1 + 2 ≤ swingCandles.length) :=
  ⟨by decide, swing_confirmation_delay swingCandles 1 sW (by decide)⟩

/-- Maximum over the win streaks recorded by the incremental update while
scanning the outcome list, with `cw` wins already on the current streak. -/
def waccW : List Bool → ℕ → ℕ
  | [], _ => 0
  | o :: rest, cw => if o then max (cw + 1) (waccW rest (cw + 1)) else waccW rest 0

/-- Loss-streak counterpart of `waccW`. -/
def waccL : List Bool → ℕ → ℕ
  | [], _ => 0
  | o :: rest, cl => if o then waccL rest 0 else max (cl + 1) (waccL rest (cl + 1))

theorem streaksGo_cons_true (rest : List Bool) (cw cl mw ml : ℕ) :
    streaksGo (true :: rest) cw cl mw ml =
      streaksGo rest (cw + 1) 0 (max mw (cw + 1)) ml := rfl

theorem streaksGo_cons_false (rest : List Bool) (cw cl mw ml : ℕ) :
    streaksGo (false :: rest) cw cl mw ml =
      streaksGo rest 0 (cl + 1) mw (max ml (cl + 1)) := rfl

theorem waccW_cons_true (rest : List Bool) (c : ℕ) :
    waccW (true :: rest) c = max (c + 1) (waccW rest (c + 1)) := rfl

theorem waccW_cons_false (rest : List Bool) (c : ℕ) :
    waccW (false :: rest) c = waccW rest 0 := rfl

theorem waccL_cons_true (rest : List Bool) (c : ℕ) :
    waccL (true :: rest) c = waccL rest 0 := rfl

theorem waccL_cons_false (rest : List Bool) (c : ℕ) :
    waccL (false :: rest) c = max (c + 1) (waccL rest (c + 1)) := rfl

theorem prefixRun_cons_same (b : Bool) (xs : List Bool) :
    prefixRun b (b :: xs) = prefixRun b xs + 1 := by
  cases b <;> rfl

theorem prefixRun_cons_other (b : Bool) (xs : List Bool) :
    prefixRun b ((!b) :: xs) = 0 := by
  cases b <;> rfl

theorem longestRun_cons (b x : Bool) (xs : List Bool) :
    longestRun b (x :: xs) = max (prefixRun b (x :: xs)) (longestRun b xs) := rfl

theorem streaksGo_eq (l : List Bool) : ∀ cw cl mw ml,
    streaksGo l cw cl mw ml = (max mw (waccW l cw), max ml (waccL l cl)) := by
  induction l with
  | nil => intro cw cl mw ml; simp [streaksGo, waccW, waccL]
  | cons o rest ih =>
    intro cw cl mw ml
    cases o
    · rw [streaksGo_cons_false, waccW_cons_false, waccL_cons_false, ih]
      exact Prod.ext (by omega) (by omega)
    · rw [streaksGo_cons_true, waccW_cons_true, waccL_cons_true, ih]
      exact Prod.ext (by omega) (by omega)

theorem prefixRun_le_longestRun (b : Bool) (l : List Bool) :
    prefixRun b l ≤ longestRun b l := by
  cases l with
  | nil => simp [prefixRun, longestRun]
  | cons x xs => exact le_max_left _ _

theorem waccW_eq (l : List Bool) : ∀ c,
    waccW l c = max (if 1 ≤ prefixRun true l then c + prefixRun true l else 0)
      (longestRun true l) := by
  induction l with
  | nil => intro c; simp [waccW, prefixRun, longestRun]
  | cons o rest ih =>
    intro c
    have hle := prefixRun_le_longestRun true rest
    cases o
    · rw [waccW_cons_false, ih, longestRun_cons,
        show prefixRun true (false :: rest) = 0 from prefixRun_cons_other true rest]
      split_ifs <;> omega
    · rw [waccW_cons_true, ih, longestRun_cons, prefixRun_cons_same]
      split_ifs <;> omega

theorem waccL_eq (l : List Bool) : ∀ c,
    waccL l c = max (if 1 ≤ prefixRun false l then c + prefixRun false l else 0)
      (longestRun false l) := by
  induction l with
  | nil => intro c; simp [waccL, prefixRun, longestRun]
  | cons o rest ih =>
    intro c
    have hle := prefixRun_le_longestRun false rest
    cases o
    · rw [waccL_cons_false, ih, longestRun_cons, prefixRun_cons_same]
      split_ifs <;> omega
    · rw [waccL_cons_true, ih, longestRun_cons,
        show prefixRun false (true :: rest) = 0 from prefixRun_cons_other false rest]
      split_ifs <;> omega

/-- C7 — Streak statistics correctness: over any sequence of traded-day
outcomes (`true` = win), the incrementally maintained
`maxConsecutiveWins` / `maxConsecutiveLosses` of `runBacktest`
(`backtestStreaks`) equal the true longest win run and loss run computed
by the independent naive suffix scan `longestRun`. -/
theorem streak_statistics_correct (outcomes : List Bool) :
    backtestStreaks outcomes =
      (longestRun true outcomes, longestRun false outcomes) := by
  unfold backtestStreaks
  rw [streaksGo_eq]
  have h1 := waccW_eq outcomes 0
  have h2 := waccL_eq outcomes 0
  have h3 := prefixRun_le_longestRun true outcomes
  have h4 := prefixRun_le_longestRun false outcomes
  rw [h1, h2]
  refine Prod.ext ?_ ?_ <;> simp only [] <;> split_ifs <;> omega

/-- C10 — Divergence length-mismatch failure: with different-length
primary/reference candle arrays, `detectDivergence` (and therefore
`checkSMTConfirmation`) throws `BTC and ETH candle arrays must be same
length` before any analysis; with equal-length inputs the exception is
never raised and a well-formed result object is returned. -/
theorem smt_length_mismatch (cfg : Config) (btcCandles ethCandles : List Candle)
    (d : Dir) :
    (btcCandles.length ≠ ethCandles.length →
      detectDivergence cfg btcCandles ethCandles =
        .error "BTC and ETH candle arrays must be same length" ∧
      checkSMTConfirmation cfg btcCandles ethCandles d =
        .error "BTC and ETH candle arrays must be same length") ∧
    (btcCandles.length = ethCandles.length →
      (∃ r, detectDivergence cfg btcCandles ethCandles = .ok r) ∧
      (∃ r, checkSMTConfirmation cfg btcCandles ethCandles d = .ok r)) := by
  constructor
  · intro hne
    have hd : detectDivergence cfg btcCandles ethCandles =
        .error "BTC and ETH candle arrays must be same length" := by
      unfold detectDivergence
      rw [if_pos hne]
    refine ⟨hd, ?_⟩
    unfold checkSMTConfirmation
    rw [hd]
    rfl
  · intro heq
    have hd : ∃ r, detectDivergence cfg btcCandles ethCandles = .ok r := by
      unfold detectDivergence
      rw [if_neg (by simp [heq])]
      dsimp only
      split
      · exact ⟨_, rfl⟩
      · exact ⟨_, rfl⟩
    obtain ⟨r, hr⟩ := hd
    refine ⟨⟨r, hr⟩, ?_⟩
    unfold checkSMTConfirmation
    rw [hr]
    show ∃ r2, Except.bind (Except.ok r) _ = .ok r2
    rw [Except.bind]
    dsimp only
    split
    · exact ⟨_, rfl⟩
    · split
      · exact ⟨_, rfl⟩
      · split
        · exact ⟨_, rfl⟩
        · exact ⟨_, rfl⟩

/-- C10 witness: a concrete mismatched pair throws, a concrete matched
pair returns a result. -/
theorem smt_length_mismatch_witness :
    checkSMTConfirmation sampleConfig [mkCandle 0 1 2 1 2] [] .bullish =
      .error "BTC and ETH candle arrays must be same length" ∧
    (∃ r, checkSMTConfirmation sampleConfig [mkCandle 0 1 2 1 2]
      [mkCandle 0 1 2 1 2] .bullish = .ok r) :=
  ⟨((smt_length_mismatch sampleConfig [mkCandle 0 1 2 1 2] [] .bullish).1
      (by decide)).2,
   ((smt_length_mismatch sampleConfig [mkCandle 0 1 2 1 2]
      [mkCandle 0 1 2 1 2] .bullish).2 rfl).2⟩

/-- Candle indexing below the length of the left list ignores an appended
extension. -/
theorem cget_append (c ext : List Candle) (i : ℕ) (h : i < c.length) :
    cget (c ++ ext) i = cget c i := by
  unfold cget
  exact List.getD_append _ _ _ _ h

/-- The fill scans ignore the `filled` / `partiallyFilled` flags of the
gap record. -/
theorem bullFillScan_update (l : List Candle) (g : FVG) (x y : Bool) :
    bullFillScan l { g with filled := x, partiallyFilled := y } =
      bullFillScan l g := rfl

theorem bearFillScan_update (l : List Candle) (g : FVG) (x y : Bool) :
    bearFillScan l { g with filled := x, partiallyFilled := y } =
      bearFillScan l g := rfl

/-- A bullish gap filled on a prefix stays filled on any extension. -/
theorem bullFillScan_mono (c ext : List Candle) (g : FVG)
    (h : bullFillScan c g = true) : bullFillScan (c ++ ext) g = true := by
  unfold bullFillScan at h ⊢
  simp only [List.any_eq_true] at h ⊢
  obtain ⟨i, hi, hcond⟩ := h
  obtain ⟨h1, h2⟩ := mem_loopRange hi
  have hlen : i < c.length := by omega
  refine ⟨i, mem_loopRange_of h1 (by simp [List.length_append]; omega), ?_⟩
  rwa [cget_append _ _ _ hlen]

/-- A bearish gap filled on a prefix stays filled on any extension. -/
theorem bearFillScan_mono (c ext : List Candle) (g : FVG)
    (h : bearFillScan c g = true) : bearFillScan (c ++ ext) g = true := by
  unfold bearFillScan at h ⊢
  simp only [List.any_eq_true] at h ⊢
  obtain ⟨i, hi, hcond⟩ := h
  obtain ⟨h1, h2⟩ := mem_loopRange hi
  have hlen : i < c.length := by omega
  refine ⟨i, mem_loopRange_of h1 (by simp [List.length_append]; omega), ?_⟩
  rwa [cget_append _ _ _ hlen]


/-- C6 — Gap fill monotonicity: once the completed-candle fill scan marks
a gap filled at some evaluation of a series, it stays filled at every
later evaluation of the same series extended with more candles; and
`findUnfilledFVGs` only returns gaps that no completed candle — in
particular no candle of any earlier prefix — had filled. -/
theorem gap_fill_monotonicity (cfg : Config) (c ext : List Candle) (g : FVG) :
    (bullFillScan c g = true → bullFillScan (c ++ ext) g = true) ∧
    (bearFillScan c g = true → bearFillScan (c ++ ext) g = true) ∧
    (∀ us, findUnfilledFVGs cfg (c ++ ext) = .ok us →
      (∀ u ∈ us.1, bullFillScan c u.fvg = false ∧
        bullFillScan (c ++ ext) u.fvg = false) ∧
      (∀ u ∈ us.2, bearFillScan c u.fvg = false ∧
        bearFillScan (c ++ ext) u.fvg = false)) := by
  refine ⟨bullFillScan_mono c ext g, bearFillScan_mono c ext g, ?_⟩
  intro us hus
  unfold findUnfilledFVGs at hus
  rcases hlast : lastCandle? (c ++ ext) with _ | last <;> rw [hlast] at hus
  · exact absurd hus (by simp [Except.bind])
  · have hus' := Except.ok.inj (show Except.ok _ = Except.ok us from hus)
    subst hus'
    constructor
    · intro u hu
      simp only [List.mem_filterMap] at hu
      obtain ⟨fvg, hfvg, hif⟩ := hu
      split at hif
      · exact absurd hif (by simp)
      · rename_i hscan
        rw [Option.some_inj] at hif
        subst hif
        have hfull : bullFillScan (c ++ ext) fvg = false := by simpa using hscan
        have hcfalse : bullFillScan c fvg = false := by
          rcases hb : bullFillScan c fvg
          · rfl
          · exact absurd (bullFillScan_mono c ext fvg hb) (by simp [hfull])
        exact ⟨by rw [bullFillScan_update, hcfalse], by rw [bullFillScan_update, hfull]⟩
    · intro u hu
      simp only [List.mem_filterMap] at hu
      obtain ⟨fvg, hfvg, hif⟩ := hu
      split at hif
      · exact absurd hif (by simp)
      · rename_i hscan
        rw [Option.some_inj] at hif
        subst hif
        have hfull : bearFillScan (c ++ ext) fvg = false := by simpa using hscan
        have hcfalse : bearFillScan c fvg = false := by
          rcases hb : bearFillScan c fvg
          · rfl
          · exact absurd (bearFillScan_mono c ext fvg hb) (by simp [hfull])
        exact ⟨by rw [bearFillScan_update, hcfalse], by rw [bearFillScan_update, hfull]⟩

/-- Scenario-A candles (spec §8): `c1.high = 100`, `c3.low = 101` on an
asset priced near 100 (`c2.close = 100`), followed by one more completed
candle. -/
def scenA : List Candle :=
  [mkCandle 0 99 100 98 99,
   mkCandle 1 99 102 99 100,
   mkCandle 2 101 103 101 102,
   mkCandle 3 102 104 102 103]

/-- The 1% bullish gap that `detectFVGs` finds in `scenA`. -/
def gapA : FVG :=
  { type := "BULLISH_FVG", high := 101, low := 100, midpoint := 201/2
    size := 1, sizePercent := 1, timestamp := 1, index := 1
    displacementCandle := mkCandle 1 99 102 99 100, hasDisplacement := true
    filled := false, partiallyFilled := false }

/-- `scenA` extended so that the in-prefix candle at index 4 (low 99)
fills the gap. -/
def scenAFilled : List Candle :=
  scenA ++ [mkCandle 4 100 101 99 100, mkCandle 5 102 103 101 102]

/-- C6 witness: the gap filled by candle 4 of `scenAFilled` stays filled
after extending the series, and a concrete `findUnfilledFVGs` evaluation
on the extended series satisfies the no-earlier-fill property. -/
theorem gap_fill_monotonicity_witness :
    bullFillScan scenAFilled gapA = true ∧
    bullFillScan (scenAFilled ++ [mkCandle 6 103 104 102 103]) gapA = true ∧
    (findUnfilledFVGs sampleConfig (scenAFilled ++ [mkCandle 6 103 104 102 103]) =
      .ok ([], []) ∧
     ∀ u ∈ (([], []) : List UnfilledFVG × List UnfilledFVG).1,
       bullFillScan scenAFilled u.fvg = false) :=
  ⟨by decide,
   (gap_fill_monotonicity sampleConfig scenAFilled [mkCandle 6 103 104 102 103]
      gapA).1 (by decide),
   by decide,
   fun u hu => (((gap_fill_monotonicity sampleConfig scenAFilled
      [mkCandle 6 103 104 102 103] gapA).2.2 ([], []) (by decide)).1 u hu).1⟩

/-- A `false` bullish fill scan means no completed candle after the gap
origin reached the gap bottom. -/
theorem bullFillScan_false_iff (l : List Candle) (g : FVG)
    (h : bullFillScan l g = false) :
    ¬ ∃ j, g.index < j ∧ j + 1 < l.length ∧ (cget l j).low ≤ g.low := by
  rintro ⟨j, hj1, hj2, hj3⟩
  unfold bullFillScan at h
  rw [List.any_eq_false] at h
  exact absurd (by simpa using hj3)
    (by simpa using h j (mem_loopRange_of (by omega) (by omega)))

/-- C3 — Gap detection rule: with the displacement filter disabled, a
window of three completed candles `(c1, c2, c3)` at positions
`i-2, i-1, i` (with `i + 1 < length`, so `c3` is completed even in online
mode) yields a bullish gap record iff `c3.low > c1.high` and the gap size
as a percentage of `c2.close` lies in `[minSizePercent, maxSizePercent]`;
the bearish case is symmetric with `c1.low > c3.high`; and every bullish
gap returned by `findUnfilledFVGs` carries `filled = false` and has no
completed candle after its origin with `low ≤` the gap bottom. -/
theorem gap_detection_rule (cfg : Config) (candles : List Candle) (i : ℕ)
    (hdisp : cfg.fvgRequireDisplacement = false) (h2 : 2 ≤ i)
    (hi : i + 1 < candles.length) :
    ((∃ f ∈ (detectFVGs cfg candles true).1, f.index = i - 1) ↔
      ((cget candles i).low > (cget candles (i - 2)).high ∧
       cfg.fvgMinSizePercent ≤
         ((cget candles i).low - (cget candles (i - 2)).high) /
           (cget candles (i - 1)).close * 100 ∧
       ((cget candles i).low - (cget candles (i - 2)).high) /
           (cget candles (i - 1)).close * 100 ≤ cfg.fvgMaxSizePercent)) ∧
    ((∃ f ∈ (detectFVGs cfg candles true).2, f.index = i - 1) ↔
      ((cget candles (i - 2)).low > (cget candles i).high ∧
       cfg.fvgMinSizePercent ≤
         ((cget candles (i - 2)).low - (cget candles i).high) /
           (cget candles (i - 1)).close * 100 ∧
       ((cget candles (i - 2)).low - (cget candles i).high) /
           (cget candles (i - 1)).close * 100 ≤ cfg.fvgMaxSizePercent)) ∧
    (∀ us, findUnfilledFVGs cfg candles = .ok us → ∀ u ∈ us.1,
      u.fvg.filled = false ∧
      ¬ ∃ j, u.fvg.index < j ∧ j + 1 < candles.length ∧
        (cget candles j).low ≤ u.fvg.low) := by
  refine ⟨?_, ?_, ?_⟩
  · constructor
    · rintro ⟨f, hf, hidx⟩
      unfold detectFVGs at hf
      simp only [List.mem_filterMap] at hf
      obtain ⟨j, hj, hjf⟩ := hf
      obtain ⟨hj2, hjlt⟩ := mem_loopRange hj
      split at hjf
      · split at hjf
        · split at hjf
          · rw [Option.some_inj] at hjf
            subst hjf
            rename_i hgt hrange _
            have hji : j = i := by
              have : j - 1 = i - 1 := hidx
              omega
            subst hji
            exact ⟨hgt, hrange.1, hrange.2⟩
          · exact absurd hjf (by simp)
        · exact absurd hjf (by simp)
      · exact absurd hjf (by simp)
    · rintro ⟨hgt, hmin, hmax⟩
      refine ⟨{ type := "BULLISH_FVG"
                high := (cget candles i).low
                low := (cget candles (i - 2)).high
                midpoint := ((cget candles i).low + (cget candles (i - 2)).high) / 2
                size := (cget candles i).low - (cget candles (i - 2)).high
                sizePercent := ((cget candles i).low - (cget candles (i - 2)).high) /
                  (cget candles (i - 1)).close * 100
                timestamp := (cget candles (i - 1)).timestamp
                index := i - 1
                displacementCandle := cget candles (i - 1)
                hasDisplacement := decide (|(cget candles (i - 1)).close -
                  (cget candles (i - 1)).opn| / (cget candles (i - 1)).opn * 100 ≥
                  cfg.fvgDisplacementMinSize)
                filled := false
                partiallyFilled := false },
        List.mem_filterMap.mpr ⟨i,
          mem_loopRange_of h2 (by simp only [if_true]; omega), ?_⟩, rfl⟩
      simp only []
      split
      · split
        · split
          · rfl
          · rename_i hcontra
            exact absurd (Or.inl (by simp [hdisp])) hcontra
        · rename_i hcontra
          exact absurd ⟨hmin, hmax⟩ hcontra
      · rename_i hcontra
        exact absurd hgt hcontra
  · constructor
    · rintro ⟨f, hf, hidx⟩
      unfold detectFVGs at hf
      simp only [List.mem_filterMap] at hf
      obtain ⟨j, hj, hjf⟩ := hf
      obtain ⟨hj2, hjlt⟩ := mem_loopRange hj
      split at hjf
      · split at hjf
        · split at hjf
          · rw [Option.some_inj] at hjf
            subst hjf
            rename_i hgt hrange _
            have hji : j = i := by
              have : j - 1 = i - 1 := hidx
              omega
            subst hji
            exact ⟨hgt, hrange.1, hrange.2⟩
          · exact absurd hjf (by simp)
        · exact absurd hjf (by simp)
      · exact absurd hjf (by simp)
    · rintro ⟨hgt, hmin, hmax⟩
      refine ⟨{ type := "BEARISH_FVG"
                high := (cget candles (i - 2)).low
                low := (cget candles i).high
                midpoint := ((cget candles (i - 2)).low + (cget candles i).high) / 2
                size := (cget candles (i - 2)).low - (cget candles i).high
                sizePercent := ((cget candles (i - 2)).low - (cget candles i).high) /
                  (cget candles (i - 1)).close * 100
                timestamp := (cget candles (i - 1)).timestamp
                index := i - 1
                displacementCandle := cget candles (i - 1)
                hasDisplacement := decide (|(cget candles (i - 1)).close -
                  (cget candles (i - 1)).opn| / (cget candles (i - 1)).opn * 100 ≥
                  cfg.fvgDisplacementMinSize)
                filled := false
                partiallyFilled := false },
        List.mem_filterMap.mpr ⟨i,
          mem_loopRange_of h2 (by simp only [if_true]; omega), ?_⟩, rfl⟩
      simp only []
      split
      · split
        · split
          · rfl
          · rename_i hcontra
            exact absurd (Or.inl (by simp [hdisp])) hcontra
        · rename_i hcontra
          exact absurd ⟨hmin, hmax⟩ hcontra
      · rename_i hcontra
        exact absurd hgt hcontra
  · intro us hus u hu
    unfold findUnfilledFVGs at hus
    rcases hlast : lastCandle? candles with _ | last <;> rw [hlast] at hus
    · exact absurd hus (by simp [Except.bind])
    · have hus' := Except.ok.inj (show Except.ok _ = Except.ok us from hus)
      subst hus'
      simp only [List.mem_filterMap] at hu
      obtain ⟨fvg, hfvg, hif⟩ := hu
      split at hif
      · exact absurd hif (by simp)
      · rename_i hscan
        rw [Option.some_inj] at hif
        subst hif
        have hfull : bullFillScan candles fvg = false := by simpa using hscan
        refine ⟨rfl, ?_⟩
        have := bullFillScan_false_iff candles fvg hfull
        simpa using this

/-- Witness for C3: in Scenario A (`scenA`) with the sample configuration,
position `i = 2` satisfies the hypotheses and the forward use of the rule
produces the 1% bullish gap at index 1. -/
theorem gap_detection_rule_witness :
    sampleConfig.fvgRequireDisplacement = false ∧ 2 ≤ 2 ∧ 2 + 1 < scenA.length ∧
    (∃ f ∈ (detectFVGs sampleConfig scenA true).1, f.index = 1) :=
  ⟨rfl, by decide, by decide,
   (gap_detection_rule sampleConfig scenA 2 rfl (by decide) (by decide)).1.mpr
     (by refine ⟨by decide, ?_, ?_⟩ <;>
       simp only [scenA, mkCandle, cget, sampleConfig, List.getD] <;> norm_num)⟩

/-- Membership in an `insDesc` insertion is membership in the inserted
element or the original list. -/
theorem mem_insDesc {α : Type} (key : α → ℚ) (x y : α) (l : List α) :
    y ∈ insDesc key x l ↔ y = x ∨ y ∈ l := by
  induction l with
  | nil => simp [insDesc]
  | cons z zs ih =>
    simp only [insDesc]
    split
    · simp only [List.mem_cons]
    · simp only [List.mem_cons, ih]
      tauto

/-- Folding `insDesc` over a list preserves the members. -/
theorem mem_foldl_insDesc {α : Type} (key : α → ℚ) (x : α) (l acc : List α) :
    x ∈ l.foldl (fun a y => insDesc key y a) acc ↔ x ∈ l ∨ x ∈ acc := by
  induction l generalizing acc with
  | nil => simp
  | cons z zs ih =>
    simp only [List.foldl_cons, ih, mem_insDesc, List.mem_cons]
    tauto

/-- `sortDesc` is a permutation-style sort: it has the same members as its
input. -/
theorem mem_sortDesc {α : Type} (key : α → ℚ) (x : α) (l : List α) :
    x ∈ sortDesc key l ↔ x ∈ l := by
  unfold sortDesc
  rw [mem_foldl_insDesc]
  simp

/-- C4 — Sweep confirmation discipline (amended): every sweep reported by
`detectLiquiditySweep` in online mode comes from a candle at some index `i`
that pierces the pool price with a rejecting close, carries exactly
`SWEEP_CONFIRMATION_CANDLES` confirmation candles — the candles at indices
`i+1 .. i+N`, all closing on the rejecting side — and satisfies
`i + N < length`.  The window therefore fits inside the series, but its
last element may be the final, still-in-progress candle of the series
(`i + N = length - 1` is allowed), contrary to the claim that no
confirmation window includes a non-completed candle. -/
theorem sweep_confirmation_discipline (cfg : Config) (candles : List Candle)
    (s : Sweep) (hs : s ∈ detectLiquiditySweep cfg candles true) :
    s.confirmationCandles.length = cfg.liqSweepConfirmationCandles ∧
    ∃ i, i + cfg.liqSweepConfirmationCandles < candles.length ∧
      s.sweepCandle = cget candles i ∧
      s.confirmationCandles =
        (candles.drop (i + 1)).take cfg.liqSweepConfirmationCandles ∧
      ((s.type = "BUY_SIDE_SWEEP" ∧
        s.sweepCandle.high > s.liquidityPool.price ∧
        s.sweepCandle.close < s.liquidityPool.price ∧
        ∀ c ∈ s.confirmationCandles, c.close < s.liquidityPool.price) ∨
       (s.type = "SELL_SIDE_SWEEP" ∧
        s.sweepCandle.low < s.liquidityPool.price ∧
        s.sweepCandle.close > s.liquidityPool.price ∧
        ∀ c ∈ s.confirmationCandles, c.close > s.liquidityPool.price)) := by
  unfold detectLiquiditySweep at hs
  simp only [] at hs
  rw [mem_sortDesc, List.mem_append] at hs
  rcases hs with hs | hs
  · rw [List.mem_flatMap] at hs
    obtain ⟨pool, hpool, hs⟩ := hs
    rw [List.mem_filterMap] at hs
    obtain ⟨i, hi, hif⟩ := hs
    have hib := mem_loopRange hi
    rw [if_pos trivial] at hib
    split at hif
    · split at hif
      · split at hif
        · split at hif
          · rw [Option.some_inj] at hif
            subst hif
            rename_i h1 h2 h3 h4
            rw [List.all_eq_true] at h4
            constructor
            · show ((candles.drop (i + 1)).take cfg.liqSweepConfirmationCandles).length = _
              rw [List.length_take] at h3 ⊢
              omega
            · refine ⟨i, by omega, rfl, rfl, Or.inl ⟨rfl, h1, h2.1, ?_⟩⟩
              intro c hc
              simpa using h4 c hc
          · exact absurd hif (by simp)
        · exact absurd hif (by simp)
      · exact absurd hif (by simp)
    · exact absurd hif (by simp)
  · rw [List.mem_flatMap] at hs
    obtain ⟨pool, hpool, hs⟩ := hs
    rw [List.mem_filterMap] at hs
    obtain ⟨i, hi, hif⟩ := hs
    have hib := mem_loopRange hi
    rw [if_pos trivial] at hib
    split at hif
    · split at hif
      · split at hif
        · split at hif
          · rw [Option.some_inj] at hif
            subst hif
            rename_i h1 h2 h3 h4
            rw [List.all_eq_true] at h4
            constructor
            · show ((candles.drop (i + 1)).take cfg.liqSweepConfirmationCandles).length = _
              rw [List.length_take] at h3 ⊢
              omega
            · refine ⟨i, by omega, rfl, rfl, Or.inr ⟨rfl, h1, h2.1, ?_⟩⟩
              intro c hc
              simpa using h4 c hc
          · exact absurd hif (by simp)
        · exact absurd hif (by simp)
      · exact absurd hif (by simp)
    · exact absurd hif (by simp)

/-- A configuration with one confirmation candle and exact equal-touch
tolerance, for the C4 counterexample. -/
def cfgC4 : Config :=
  { sampleConfig with liqSweepConfirmationCandles := 1, liqEqualTolerance := 0 }

/-- A 13-candle series: a sell-side pool at 100 (lows of candles 0 and 1),
a sweep candle at index 11 (low 98, close above the pool), and the single
confirmation candle at index 12 — the in-progress last candle. -/
def candC4 : List Candle :=
  [mkCandle 0 101 102 100 101,
   mkCandle 1 101 103 100 102,
   mkCandle 2 108 109 107 108,
   mkCandle 3 110 111 109 110,
   mkCandle 4 110 112 110 111,
   mkCandle 5 111 113 111 112,
   mkCandle 6 112 114 112 113,
   mkCandle 7 113 115 113 114,
   mkCandle 8 114 116 114 115,
   mkCandle 9 115 117 115 116,
   mkCandle 10 116 118 116 117,
   mkCandle 11 104 105 98 103,
   mkCandle 12 105 106 104 105]

instance : Inhabited Dir := ⟨.neutral⟩

instance : Inhabited LiquidityPool := ⟨⟨"", "", 0, 0, [], 0, 0, 0⟩⟩

instance : Inhabited Sweep := ⟨⟨"", default, default, default, 0, [], 0, 0, 0, 0⟩⟩

/-- The top-ranked sweep reported on the C4 counterexample series. -/
def sweepC4 : Sweep := (detectLiquiditySweep cfgC4 candC4 true).headD default

/-- Counterexample to the literal C4 claim: on `candC4` a reported sweep's
confirmation window contains the final candle of the series — exactly the
candle that is still in progress at evaluation time. -/
theorem sweep_confirmation_discipline_cx :
    ∃ s ∈ detectLiquiditySweep cfgC4 candC4 true,
      cget candC4 (candC4.length - 1) ∈ s.confirmationCandles := by decide

/-- Witness for C4: the reported sweep on `candC4` satisfies the amended
discipline at a concrete input. -/
theorem sweep_confirmation_discipline_witness :
    sweepC4 ∈ detectLiquiditySweep cfgC4 candC4 true ∧
    (sweepC4.confirmationCandles.length = cfgC4.liqSweepConfirmationCandles ∧
    ∃ i, i + cfgC4.liqSweepConfirmationCandles < candC4.length ∧
      sweepC4.sweepCandle = cget candC4 i ∧
      sweepC4.confirmationCandles =
        (candC4.drop (i + 1)).take cfgC4.liqSweepConfirmationCandles ∧
      ((sweepC4.type = "BUY_SIDE_SWEEP" ∧
        sweepC4.sweepCandle.high > sweepC4.liquidityPool.price ∧
        sweepC4.sweepCandle.close < sweepC4.liquidityPool.price ∧
        ∀ c ∈ sweepC4.confirmationCandles,
          c.close < sweepC4.liquidityPool.price) ∨
       (sweepC4.type = "SELL_SIDE_SWEEP" ∧
        sweepC4.sweepCandle.low < sweepC4.liquidityPool.price ∧
        sweepC4.sweepCandle.close > sweepC4.liquidityPool.price ∧
        ∀ c ∈ sweepC4.confirmationCandles,
          c.close > sweepC4.liquidityPool.price))) := by
  constructor
  · decide
  · exact sweep_confirmation_discipline cfgC4 candC4 sweepC4 (by decide)

/-- A do-bind on an error propagates the error (`Except` monad law). -/
theorem exc_bind_error {α β : Type} (e : String) (f : α → Except String β) :
    (do let x ← (Except.error e : Except String α); f x) = Except.error e := rfl

/-- A do-bind on a success applies the continuation (`Except` monad law). -/
theorem exc_bind_ok {α β : Type} (v : α) (f : α → Except String β) :
    (do let x ← (Except.ok v : Except String α); f x) = f v := rfl

/-- `foldl (+)` over ℚ starting from `x` is `x` plus the fold from `0`. -/
theorem qfoldl_init (l : List ℚ) (x : ℚ) :
    l.foldl (fun u v => u + v) x = x + l.foldl (fun u v => u + v) 0 := by
  induction l generalizing x with
  | nil => simp
  | cons z zs ih =>
    simp only [List.foldl_cons]
    rw [ih (x + z), ih (0 + z)]
    ring

/-- `qsum` distributes over list append. -/
theorem qsum_append (l1 l2 : List ℚ) : qsum (l1 ++ l2) = qsum l1 + qsum l2 := by
  unfold qsum
  rw [List.foldl_append]
  exact qfoldl_init l2 _

/-- The configured weight that `calculateConfluence` adds for each factor
label it can place in `presentFactors` (the `_MISSING` labels only ever
appear in `missingFactors` and carry weight 0). -/
def confFactorWeight (cfg : Config) : ConfFactor → ℚ
  | .HTF_BIAS => cfg.wHtfBiasAligned
  | .KILLZONE => cfg.wKillzoneActive
  | .SILVER_BULLET => 1/2
  | .LIQUIDITY_SWEPT => cfg.wLiquiditySwept
  | .FVG => cfg.wFvgPresent
  | .PD_ZONE => cfg.wPremiumDiscountZone
  | .SMT => cfg.wSmtDivergence
  | .NEWS_CLEAR => cfg.wNewsClear
  | .SENTIMENT _ => jsOrQ? cfg.wNewsSentimentAligned (3/2)
  | .ETF_FLOWS _ => jsOrQ? cfg.wEtfFlowsAligned 2
  | .ECONOMIC _ => jsOrQ? cfg.wEconomicBiasAligned 1
  | .NEWS_SENTIMENT_MISSING => 0
  | .ETF_FLOWS_MISSING => 0
  | .ECONOMIC_BIAS_MISSING => 0

/-- The confluence-accumulator invariant: the running score is the sum of
the configured weights of the factors collected so far. -/
def confInv (cfg : Config) (st : ℚ × List ConfFactor × List ConfFactor) : Prop :=
  st.1 = qsum (st.2.1.map (confFactorWeight cfg))

/-- The invariant holds at the initial accumulator. -/
theorem confInv_nil (cfg : Config) : confInv cfg (0, [], []) := by
  simp [confInv, qsum]

/-- Adding a factor together with its configured weight preserves the
invariant. -/
theorem confInv_add (cfg : Config) {st : ℚ × List ConfFactor × List ConfFactor}
    (f : ConfFactor) (w : ℚ) (hw : confFactorWeight cfg f = w)
    (hst : confInv cfg st) :
    confInv cfg (st.1 + w, st.2.1 ++ [f], st.2.2) := by
  show st.1 + w = qsum ((st.2.1 ++ [f]).map (confFactorWeight cfg))
  rw [List.map_append, qsum_append, ← hst, List.map_singleton, hw]
  simp [qsum]

/-- Recording a missing factor (score and present list unchanged)
preserves the invariant. -/
theorem confInv_keep (cfg : Config) {st : ℚ × List ConfFactor × List ConfFactor}
    (m : List ConfFactor) (hst : confInv cfg st) :
    confInv cfg (st.1, st.2.1, st.2.2 ++ m) := hst

/-- The invariant is preserved through a branch when it holds on both
sides. -/
theorem confInv_ite (cfg : Config) (c : Prop) [Decidable c]
    {A B : ℚ × List ConfFactor × List ConfFactor}
    (hA : confInv cfg A) (hB : confInv cfg B) :
    confInv cfg (if c then A else B) := by
  split
  · exact hA
  · exact hB

/-- The news-sentiment external step preserves the invariant. -/
theorem confInv_matchSent (cfg : Config) {st : ℚ × List ConfFactor × List ConfFactor}
    (o : Option ExtSignal) (hst : confInv cfg st) :
    confInv cfg (match o with
      | some s =>
        if s.aligned
        then (st.1 + jsOrQ? cfg.wNewsSentimentAligned (3/2),
              st.2.1 ++ [ConfFactor.SENTIMENT ((s.bias.map Dir.render).getD "undefined")], st.2.2)
        else (st.1, st.2.1, st.2.2 ++ [ConfFactor.NEWS_SENTIMENT_MISSING])
      | none => st) := by
  match o with
  | none => exact hst
  | some s =>
    exact confInv_ite cfg _ (confInv_add cfg _ _ rfl hst) (confInv_keep cfg _ hst)

/-- The ETF-flows external step preserves the invariant. -/
theorem confInv_matchEtf (cfg : Config) {st : ℚ × List ConfFactor × List ConfFactor}
    (o : Option ExtSignal) (hst : confInv cfg st) :
    confInv cfg (match o with
      | some s =>
        if s.aligned
        then (st.1 + jsOrQ? cfg.wEtfFlowsAligned 2,
              st.2.1 ++ [ConfFactor.ETF_FLOWS ((s.bias.map Dir.render).getD "undefined")], st.2.2)
        else (st.1, st.2.1, st.2.2 ++ [ConfFactor.ETF_FLOWS_MISSING])
      | none => st) := by
  match o with
  | none => exact hst
  | some s =>
    exact confInv_ite cfg _ (confInv_add cfg _ _ rfl hst) (confInv_keep cfg _ hst)

/-- The economic-calendar external step preserves the invariant. -/
theorem confInv_matchEcon (cfg : Config) {st : ℚ × List ConfFactor × List ConfFactor}
    (o : Option ExtSignal) (hst : confInv cfg st) :
    confInv cfg (match o with
      | some s =>
        if s.aligned
        then (st.1 + jsOrQ? cfg.wEconomicBiasAligned 1,
              st.2.1 ++ [ConfFactor.ECONOMIC ((s.bias.map Dir.render).getD "undefined")], st.2.2)
        else (st.1, st.2.1, st.2.2 ++ [ConfFactor.ECONOMIC_BIAS_MISSING])
      | none => st) := by
  match o with
  | none => exact hst
  | some s =>
    exact confInv_ite cfg _ (confInv_add cfg _ _ rfl hst) (confInv_keep cfg _ hst)

/-- C5 — Confluence additivity (amended): whenever `calculateConfluence`
succeeds, the reported score is the exact sum of the configured weights of
`presentFactors`, *rounded to one decimal* (`Math.round(score * 10) / 10`).
Every present factor contributes exactly its configured weight to the sum
and nothing else is added, so additivity holds up to — but only up to —
that final rounding (the literal claim of exact equality fails, see the
counterexample). -/
theorem confluence_additivity_rounded (cfg : Config) (a : ConfAnalysis)
    (btc eth : List Candle) (dir : Dir) (r : ConfluenceResult)
    (h : calculateConfluence cfg a btc eth dir = .ok r) :
    r.score =
      (jsRound (qsum (r.presentFactors.map (confFactorWeight cfg)) * 10) : ℚ) / 10 := by
  unfold calculateConfluence at h
  lift_lets at h
  extract_lets st0 st1 stk st2 st3 pdZone correctZone at h
  rcases hfv : isAtFVGEntry cfg btc dir with e | fv <;> rw [hfv] at h
  · rw [exc_bind_error] at h
    exact absurd h (by simp)
  rw [exc_bind_ok] at h
  lift_lets at h
  extract_lets st4 st5 at h
  rcases hsm : checkSMTConfirmation cfg btc eth dir with e2 | sm <;> rw [hsm] at h
  · rw [exc_bind_error] at h
    exact absurd h (by simp)
  rw [exc_bind_ok] at h
  lift_lets at h
  extract_lets st6 st7 st8 st9 st10 at h
  have hr := Except.ok.inj (show Except.ok _ = Except.ok r from h)
  subst hr
  have h0 : confInv cfg st0 := confInv_nil cfg
  have h1 : confInv cfg st1 := confInv_ite cfg (a.htfBias.aligned = true)
    (confInv_add cfg ConfFactor.HTF_BIAS cfg.wHtfBiasAligned rfl h0)
    (confInv_keep cfg [ConfFactor.HTF_BIAS] h0)
  have hk : confInv cfg stk :=
    confInv_add cfg ConfFactor.KILLZONE cfg.wKillzoneActive rfl h1
  have h2 : confInv cfg st2 := confInv_ite cfg (a.killzoneStatus.canTrade = true)
    (confInv_ite cfg
      ((a.killzoneStatus.quality.bind KillzoneQuality.inSilverBullet).map
        SilverBulletResult.active = some true)
      (confInv_add cfg ConfFactor.SILVER_BULLET (1/2) rfl hk) hk)
    (confInv_keep cfg [ConfFactor.KILLZONE] h1)
  have h3 : confInv cfg st3 := confInv_ite cfg (a.liquiditySweep.swept = true)
    (confInv_add cfg ConfFactor.LIQUIDITY_SWEPT cfg.wLiquiditySwept rfl h2)
    (confInv_keep cfg [ConfFactor.LIQUIDITY_SWEPT] h2)
  have h4 : confInv cfg st4 := confInv_ite cfg (fv.valid = true)
    (confInv_add cfg ConfFactor.FVG cfg.wFvgPresent rfl h3)
    (confInv_keep cfg [ConfFactor.FVG] h3)
  have h5 : confInv cfg st5 := confInv_ite cfg correctZone
    (confInv_add cfg ConfFactor.PD_ZONE cfg.wPremiumDiscountZone rfl h4)
    (confInv_keep cfg [ConfFactor.PD_ZONE] h4)
  have h6 : confInv cfg st6 := confInv_ite cfg (sm.confirmed = true)
    (confInv_add cfg ConfFactor.SMT cfg.wSmtDivergence rfl h5)
    (confInv_keep cfg [ConfFactor.SMT] h5)
  have h7 : confInv cfg st7 := confInv_ite cfg (¬ a.newsCheck.blackout = true)
    (confInv_add cfg ConfFactor.NEWS_CLEAR cfg.wNewsClear rfl h6)
    (confInv_keep cfg [ConfFactor.NEWS_CLEAR] h6)
  have h8 : confInv cfg st8 := confInv_matchSent cfg a.externalData.sentiment h7
  have h9 : confInv cfg st9 := confInv_matchEtf cfg a.externalData.etf h8
  have h10 : confInv cfg st10 := confInv_matchEcon cfg a.externalData.economic h9
  exact congrArg (fun q => (jsRound (q * 10) : ℚ) / 10) h10

/-- A configuration whose only nonzero internal weight is 1/4 on HTF bias
alignment, for the C5 counterexample. -/
def cfg5 : Config :=
  { sampleConfig with
      wHtfBiasAligned := 1/4
      wKillzoneActive := 0
      wLiquiditySwept := 0
      wFvgPresent := 0
      wPremiumDiscountZone := 0
      wSmtDivergence := 0
      wNewsClear := 0 }

/-- A one-candle BTC series for the C5 counterexample. -/
def btc5 : List Candle := [mkCandle 0 100 101 99 100]

/-- A one-candle ETH series for the C5 counterexample. -/
def eth5 : List Candle := [mkCandle 0 10 11 9 10]

/-- Analysis inputs where only the HTF-bias factor is present. -/
def a5 : ConfAnalysis :=
  { htfBias := ⟨[], .neutral, true, 0, 0, 0⟩
    killzoneStatus := ⟨false, none, none, none, none, none⟩
    liquiditySweep := ⟨false, none, none, none⟩
    entryModels := ⟨false, none, 0, "", none, none, none⟩
    newsCheck := ⟨true, none, none⟩
    volatility := ⟨true, 0⟩
    externalData := ⟨none, none, none, ⟨0, 0, .neutral, false⟩⟩ }

/-- The confluence result on the C5 counterexample inputs. -/
def r5 : ConfluenceResult :=
  match calculateConfluence cfg5 a5 btc5 eth5 Dir.neutral with
  | .ok r => r
  | .error _ => ⟨0, 0, [], [], false⟩

/-- Counterexample to the literal C5 claim: with a single present factor of
configured weight 1/4, the reported score is `Math.round(2.5)/10 = 0.3`,
not the exact weight sum `0.25` — the rounding step breaks exact
additivity. -/
theorem confluence_additivity_cx :
    (calculateConfluence cfg5 a5 btc5 eth5 Dir.neutral).map
      ConfluenceResult.presentFactors = .ok [ConfFactor.HTF_BIAS] ∧
    (calculateConfluence cfg5 a5 btc5 eth5 Dir.neutral).map
      ConfluenceResult.score = .ok (3/10) ∧
    qsum ([ConfFactor.HTF_BIAS].map (confFactorWeight cfg5)) = 1/4 ∧
    (3/10 : ℚ) ≠ 1/4 := by decide

/-- Witness for C5: the amended rounded-additivity equation holds at the
concrete counterexample inputs. -/
theorem confluence_additivity_rounded_witness :
    calculateConfluence cfg5 a5 btc5 eth5 Dir.neutral = .ok r5 ∧
    r5.score =
      (jsRound (qsum (r5.presentFactors.map (confFactorWeight cfg5)) * 10) : ℚ) / 10 :=
  ⟨by decide, confluence_additivity_rounded cfg5 a5 btc5 eth5 Dir.neutral r5 (by decide)⟩

/-- C8 — Weekend/holiday calendar gate: whenever the cursor falls on a UTC
Saturday or Sunday, or on a configured holiday date, `makeDecision`
returns `NO_TRADE` whose only reason cites the calendar gate, regardless
of every other input, and leaves the engine state untouched. -/
theorem weekend_calendar_gate (cfg : Config) (inp : DecisionInputs) (st : EngineState)
    (h : utcDayOfWeek inp.now = 0 ∨ utcDayOfWeek inp.now = 6 ∨
         utcDayNumber inp.now ∈ holidayDayNumbers) :
    (makeDecision cfg inp st).1.action = .NO_TRADE ∧
    ((makeDecision cfg inp st).1.reasons =
        ["SKIP: Weekend - no institutional activity"] ∨
     (makeDecision cfg inp st).1.reasons =
        ["SKIP: Major holiday - reduced liquidity"]) ∧
    (makeDecision cfg inp st).2 = st := by
  have hsk : shouldSkipToday inp.now =
      ⟨true, some "Weekend - no institutional activity"⟩ ∨
      shouldSkipToday inp.now =
      ⟨true, some "Major holiday - reduced liquidity"⟩ := by
    unfold shouldSkipToday
    by_cases hw : utcDayOfWeek inp.now = 0 ∨ utcDayOfWeek inp.now = 6
    · rw [if_pos hw]
      left
      rfl
    · rw [if_neg hw]
      have hh : utcDayNumber inp.now ∈ holidayDayNumbers := by tauto
      rw [if_pos (by simpa using hh)]
      right
      rfl
  unfold makeDecision makeDecisionPrefix
  rcases hsk with hsk | hsk <;> rw [hsk]
  · exact ⟨rfl, Or.inl rfl, rfl⟩
  · exact ⟨rfl, Or.inr rfl, rfl⟩

/-- Inputs whose cursor is Saturday 2025-01-04 00:00 UTC (day 20092). -/
def inpW : DecisionInputs :=
  { now := 20092 * 86400000
    newsCheck := ⟨false, none, none⟩
    marketData := ⟨100, ⟨true, 0⟩, [], [], []⟩
    sentimentSignal := none
    etfSignal := none
    economicSignal := none }

/-- The same inputs moved to Wednesday 2025-01-01 (New Year, day 20089). -/
def inpH : DecisionInputs := { inpW with now := 20089 * 86400000 }

/-- A fresh engine state. -/
def st0 : EngineState := ⟨0, none, 0⟩

/-- Witness for C8: the gate fires both on a concrete Saturday and on a
concrete configured holiday. -/
theorem weekend_calendar_gate_witness :
    (utcDayOfWeek inpW.now = 6 ∧
     (makeDecision sampleConfig inpW st0).1.action = .NO_TRADE ∧
     ((makeDecision sampleConfig inpW st0).1.reasons =
        ["SKIP: Weekend - no institutional activity"] ∨
      (makeDecision sampleConfig inpW st0).1.reasons =
        ["SKIP: Major holiday - reduced liquidity"])) ∧
    (utcDayNumber inpH.now ∈ holidayDayNumbers ∧
     (makeDecision sampleConfig inpH st0).1.action = .NO_TRADE ∧
     ((makeDecision sampleConfig inpH st0).1.reasons =
        ["SKIP: Weekend - no institutional activity"] ∨
      (makeDecision sampleConfig inpH st0).1.reasons =
        ["SKIP: Major holiday - reduced liquidity"])) :=
  ⟨⟨by decide,
    (weekend_calendar_gate sampleConfig inpW st0 (Or.inr (Or.inl (by decide)))).1,
    (weekend_calendar_gate sampleConfig inpW st0 (Or.inr (Or.inl (by decide)))).2.1⟩,
   ⟨by decide,
    (weekend_calendar_gate sampleConfig inpH st0 (Or.inr (Or.inr (by decide)))).1,
    (weekend_calendar_gate sampleConfig inpH st0 (Or.inr (Or.inr (by decide)))).2.1⟩⟩

/-- When the daily-limit branch of step 10 fires, the decision is the
accumulated NO_TRADE decision with the DAILY LIMIT reason appended, and
the returned state is the (possibly day-reset) engine state. -/
theorem makeDecisionTradeStep_limit (cfg : Config) (inp : DecisionInputs)
    (st : EngineState) (d : Decision) (dir : Dir) (htf : HTFBiasResult)
    (em : EntryModelsResult) (conf : ConfluenceResult)
    (ST1 : EngineState)
    (hST1 : ST1 = if st.lastTradeDate ≠ some (utcDayNumber inp.now)
      then { st with tradesToday := 0, lastTradeDate := some (utcDayNumber inp.now) }
      else st)
    (hc : ST1.tradesToday ≥ cfg.maxTradesPerDay ∧
      (¬ conf.score ≥ cfg.conflAPlusScore ∨ ¬ cfg.allowSecondTradeIfAPlus = true)) :
    makeDecisionTradeStep cfg inp st d dir htf em conf =
      ({ d with reasons := d.reasons ++
          ["DAILY LIMIT: Already traded today (" ++ toString ST1.tradesToday ++ ")"] },
       ST1) := by
  unfold makeDecisionTradeStep
  simp only []
  rw [← hST1, if_pos hc]

/-- A NO_TRADE outcome of step 10 is stable: running step 10 again from
the state it returned reproduces the identical decision and state. -/
theorem makeDecisionTradeStep_repeat (cfg : Config) (inp : DecisionInputs)
    (st : EngineState) (d : Decision) (dir : Dir) (htf : HTFBiasResult)
    (em : EntryModelsResult) (conf : ConfluenceResult)
    (h : (makeDecisionTradeStep cfg inp st d dir htf em conf).1.action = .NO_TRADE) :
    makeDecisionTradeStep cfg inp
      ((makeDecisionTradeStep cfg inp st d dir htf em conf).2) d dir htf em conf =
    makeDecisionTradeStep cfg inp st d dir htf em conf := by
  unfold makeDecisionTradeStep at h
  simp only [] at h
  split at h <;> rename_i hc1
  · split at h <;> rename_i hc2
    · have hres := makeDecisionTradeStep_limit cfg inp st d dir htf em conf
        ⟨0, some (utcDayNumber inp.now), st.consecutiveWins⟩
        (by rw [if_pos hc1]) hc2
      have hres2 := makeDecisionTradeStep_limit cfg inp
        ⟨0, some (utcDayNumber inp.now), st.consecutiveWins⟩ d dir htf em conf
        ⟨0, some (utcDayNumber inp.now), st.consecutiveWins⟩
        (by rw [if_neg (by simp)]) hc2
      rw [hres]
      exact hres2
    · have h2 : (if dir = Dir.bullish then TradeAction.LONG else TradeAction.SHORT) =
          TradeAction.NO_TRADE := h
      cases dir <;> simp at h2
  · have hl : st.lastTradeDate = some (utcDayNumber inp.now) := by simpa using hc1
    split at h <;> rename_i hc2
    · have hres := makeDecisionTradeStep_limit cfg inp st d dir htf em conf
        st (by rw [if_neg hc1]) hc2
      rw [hres]
      exact hres
    · have h2 : (if dir = Dir.bullish then TradeAction.LONG else TradeAction.SHORT) =
          TradeAction.NO_TRADE := h
      cases dir <;> simp at h2

/-- C9 — Idempotence (amended): `makeDecision` is a pure function of
`(config, inputs, state)`, so identical calls with identical state agree
definitionally; across the source's *mutated* state, a NO_TRADE evaluation
is repeatable — re-evaluating the same `(series, cursor, config)` from the
state the first call returned yields the byte-identical decision and
state.  The literal claim fails for trading evaluations: the first call
mutates `tradesToday`, so the second call hits the DAILY LIMIT gate (see
the counterexample). -/
theorem decision_idempotence (cfg : Config) (inp : DecisionInputs)
    (st : EngineState)
    (h : (makeDecision cfg inp st).1.action = .NO_TRADE) :
    makeDecision cfg inp ((makeDecision cfg inp st).2) = makeDecision cfg inp st := by
  unfold makeDecision at h ⊢
  revert h
  rcases hp : makeDecisionPrefix cfg inp with d | ⟨d9, dir, htf, em, conf⟩ <;> intro h
  · rfl
  · exact makeDecisionTradeStep_repeat cfg inp st d9 dir htf em conf h

/-- Configuration for the C9 counterexample: one confirmation candle,
exact pool tolerance, HTF swing lookback 1, only the FVG entry model. -/
def cfg9 : Config :=
  { sampleConfig with
      liqSweepConfirmationCandles := 1
      liqEqualTolerance := 0
      swingLookbackHTF := 1
      emMmxmEnabled := false
      emJudasEnabled := false }

/-- 20 five-minute BTC candles: a sell-side pool at 99.9 (lows of candles
1 and 3), an unfilled 0.4% bullish gap at index 5, a sweep of the pool at
index 17 confirmed by candle 18, and the range low far below the final
open so the entry sits in the DISCOUNT zone. -/
def btc9 : List Candle :=
  [mkCandle 0 110 115 109 111,
   mkCandle 1 104 105 (999/10) 104,
   mkCandle 2 104 106 103 105,
   mkCandle 3 105 (1065/10) (999/10) 104,
   mkCandle 4 (995/10) (998/10) (992/10) (996/10),
   mkCandle 5 100 (1006/10) (9995/100) (1001/10),
   mkCandle 6 (1003/10) 101 (1002/10) (1008/10),
   mkCandle 7 (1008/10) (1015/10) (1004/10) 101,
   mkCandle 8 101 102 (1005/10) (1015/10),
   mkCandle 9 (1015/10) (1025/10) (1009/10) (1018/10),
   mkCandle 10 (1018/10) 103 101 102,
   mkCandle 11 102 (1035/10) (1012/10) (1025/10),
   mkCandle 12 (1025/10) 104 (1015/10) 103,
   mkCandle 13 103 (1045/10) 102 (1035/10),
   mkCandle 14 (1035/10) (1055/10) (1025/10) 104,
   mkCandle 15 104 (1062/10) 103 (1045/10),
   mkCandle 16 (1045/10) 107 (1035/10) 105,
   mkCandle 17 (1004/10) (1009/10) (9985/100) (1003/10),
   mkCandle 18 (1003/10) (1008/10) 100 (1005/10),
   mkCandle 19 100 (1002/10) (9995/100) (1001/10)]

/-- A flat same-length ETH series (no swings, so no SMT divergence). -/
def eth9 : List Candle :=
  (List.range 20).map (fun t => mkCandle t 10 (101/10) (99/10) 10)

/-- A 10-candle 4h zigzag with rising swing highs (20, 22) and rising
swing lows (10, 12): a bullish higher-timeframe structure at lookback 1. -/
def htf9 : List Candle :=
  [mkCandle 0 13 15 11 14,
   mkCandle 1 12 16 10 15,
   mkCandle 2 15 17 11 16,
   mkCandle 3 16 20 (125/10) 18,
   mkCandle 4 17 18 (121/10) 17,
   mkCandle 5 16 (185/10) 12 17,
   mkCandle 6 17 19 13 18,
   mkCandle 7 18 22 (135/10) 20,
   mkCandle 8 19 20 (132/10) 19,
   mkCandle 9 19 (205/10) (133/10) (195/10)]

/-- C9 counterexample inputs: Monday 2025-01-06 14:00 UTC (inside the
NY_AM killzone), all gates passing. -/
def inp9 : DecisionInputs :=
  { now := 20094 * 86400000 + 50400000
    newsCheck := ⟨false, none, none⟩
    marketData := ⟨100, ⟨true, 1⟩, [("4h", htf9)], btc9, eth9⟩
    sentimentSignal := none
    etfSignal := none
    economicSignal := none }

set_option maxRecDepth 100000 in
/-- Counterexample to the literal C9 claim: with identical `(series,
cursor, config)`, the first evaluation emits a LONG trade and bumps
`tradesToday`; the immediately repeated evaluation returns NO_TRADE with
the DAILY LIMIT reason — the two Decision objects differ. -/
theorem decision_idempotence_cx :
    (makeDecision cfg9 inp9 st0).1.action = TradeAction.LONG ∧
    (makeDecision cfg9 inp9 (makeDecision cfg9 inp9 st0).2).1.action =
      TradeAction.NO_TRADE ∧
    (makeDecision cfg9 inp9 (makeDecision cfg9 inp9 st0).2).1.reasons =
      ["DAILY LIMIT: Already traded today (1)"] := by decide

/-- Witness for C9: a concrete NO_TRADE evaluation (weekend inputs with
the news flag clear) repeats identically from the returned state. -/
theorem decision_idempotence_witness :
    (makeDecision sampleConfig inpW st0).1.action = .NO_TRADE ∧
    makeDecision sampleConfig inpW ((makeDecision sampleConfig inpW st0).2) =
      makeDecision sampleConfig inpW st0 :=
  ⟨by decide, decision_idempotence sampleConfig inpW st0 (by decide)⟩

instance : IsTrans Candle (fun a b => a.timestamp < b.timestamp) :=
  ⟨fun _ _ _ => Nat.lt_trans⟩

/-- In a strictly time-sorted series split around a candle `x`, everything
before `x` is earlier and everything after `x` is later. -/
theorem chain_lt_facts (l1 : List Candle) (x : Candle) (l2 : List Candle)
    (h : (l1 ++ x :: l2).Chain' (fun a b => a.timestamp < b.timestamp)) :
    (∀ c ∈ l1, c.timestamp < x.timestamp) ∧
    (∀ c ∈ l2, x.timestamp < c.timestamp) := by
  rw [List.chain'_iff_pairwise, List.pairwise_append] at h
  obtain ⟨h1, h2, hcross⟩ := h
  rw [List.pairwise_cons] at h2
  exact ⟨fun c hc => hcross c hc x (by simp), fun c hc => h2.1 c hc⟩

/-- `find?` returns the first hit: when everything before `x` fails the
predicate and `x` satisfies it, the search stops at `x`. -/
theorem find?_prefix_hit (p : Candle → Bool) (l1 : List Candle) (x : Candle)
    (l2 : List Candle) (hfail : ∀ c ∈ l1, p c = false) (hx : p x = true) :
    (l1 ++ x :: l2).find? p = some x := by
  induction l1 with
  | nil => simp [List.find?, hx]
  | cons a t ih =>
    have ha : p a = false := hfail a (by simp)
    simp only [List.cons_append, List.find?, ha]
    exact ih (fun c hc => hfail c (by simp [hc]))

/-- The causal filter `timestamp ≤ x.timestamp` over a strictly sorted
series keeps exactly the prefix up to and including `x`. -/
theorem filter_causal (l1 : List Candle) (x : Candle) (l2 : List Candle)
    (h : (l1 ++ x :: l2).Chain' (fun a b => a.timestamp < b.timestamp)) :
    (l1 ++ x :: l2).filter (fun c => decide (c.timestamp ≤ x.timestamp)) =
      l1 ++ [x] := by
  obtain ⟨h1, h2⟩ := chain_lt_facts l1 x l2 h
  rw [List.filter_append]
  have e1 : l1.filter (fun c => decide (c.timestamp ≤ x.timestamp)) = l1 :=
    List.filter_eq_self.mpr (fun c hc => by simpa using Nat.le_of_lt (h1 c hc))
  have e2 : (x :: l2).filter (fun c => decide (c.timestamp ≤ x.timestamp)) = [x] := by
    simp only [List.filter_cons, decide_eq_true_eq]
    rw [if_pos (Nat.le_refl _)]
    have : l2.filter (fun c => decide (c.timestamp ≤ x.timestamp)) = [] := by
      rw [List.filter_eq_nil_iff]
      intro c hc
      simpa using Nat.not_le_of_lt (h2 c hc)
    rw [this]
  rw [e1, e2]

/-- Dropping a failing prefix from a `find?` search. -/
theorem find?_append_fail (p : Candle → Bool) (l1 l2 : List Candle)
    (hfail : ∀ c ∈ l1, p c = false) :
    (l1 ++ l2).find? p = l2.find? p := by
  induction l1 with
  | nil => rfl
  | cons a t ih =>
    have ha : p a = false := hfail a (by simp)
    simp only [List.cons_append, List.find?, ha]
    exact ih (fun c hc => hfail c (by simp [hc]))

/-- In a strictly sorted series the first candle strictly after `x` is the
head of the suffix following `x`. -/
theorem find?_entry (l1 : List Candle) (x : Candle) (l2 : List Candle)
    (h : (l1 ++ x :: l2).Chain' (fun a b => a.timestamp < b.timestamp)) :
    (l1 ++ x :: l2).find? (fun c => decide (x.timestamp < c.timestamp)) =
      l2.head? := by
  obtain ⟨h1, h2⟩ := chain_lt_facts l1 x l2 h
  have hfail : ∀ c ∈ l1 ++ [x], (fun c => decide (x.timestamp < c.timestamp)) c = false := by
    intro c hc
    rcases List.mem_append.mp hc with hc | hc
    · simpa using Nat.not_lt_of_le (Nat.le_of_lt (h1 c hc))
    · simp at hc
      subst hc
      simp
  have hsplit : l1 ++ x :: l2 = (l1 ++ [x]) ++ l2 := by simp
  rw [hsplit, find?_append_fail _ _ _ hfail]
  cases l2 with
  | nil => rfl
  | cons b t =>
    have hb : x.timestamp < b.timestamp := h2 b (by simp)
    simp [List.find?, hb]

/-- `getLastD` of a list ending in `a` is `a`. -/
theorem getLastD_append_single {α : Type} (l : List α) (a d : α) :
    (l ++ [a]).getLastD d = a := by
  rw [List.getLastD_eq_getLast?, List.getLast?_concat]
  rfl

/-- C1 — No-lookahead determinism of the replay simulator: on a strictly
time-sorted day series whose first decision-hour candle is `dc`, the
decision outcome `(traded, prediction, entryPrice)` depends only on the
causal prefix `front ++ [dc]` and the *open* of the first candle after
`dc` (the in-progress cursor candle at entry time).  Mutating or removing
every candle strictly after the cursor — any change of `suf` that keeps
the entry open — leaves the decision triple unchanged. -/
theorem simulateDay_no_lookahead (cfg : Config)
    (front : List Candle) (dc : Candle) (suf1 suf2 : List Candle)
    (htf4h htf1d smt : List Candle) (decisionHour : ℕ)
    (hhour : ∀ c ∈ front, utcHour c.timestamp < decisionHour)
    (hdec : decisionHour ≤ utcHour dc.timestamp)
    (hs1 : (front ++ dc :: suf1).Chain' (fun a b => a.timestamp < b.timestamp))
    (hs2 : (front ++ dc :: suf2).Chain' (fun a b => a.timestamp < b.timestamp))
    (hopen : (suf1.head?).map Candle.opn = (suf2.head?).map Candle.opn) :
    (simulateDay cfg (front ++ dc :: suf1) htf4h htf1d smt decisionHour).map
      DayResult.decisionTriple =
    (simulateDay cfg (front ++ dc :: suf2) htf4h htf1d smt decisionHour).map
      DayResult.decisionTriple := by
  have hfind1 := find?_prefix_hit (fun c => decide (decisionHour ≤ utcHour c.timestamp))
    front dc suf1 (fun c hc => by simpa using Nat.not_le_of_lt (hhour c hc))
    (by simpa using hdec)
  have hfind2 := find?_prefix_hit (fun c => decide (decisionHour ≤ utcHour c.timestamp))
    front dc suf2 (fun c hc => by simpa using Nat.not_le_of_lt (hhour c hc))
    (by simpa using hdec)
  have hfilt1 := filter_causal front dc suf1 hs1
  have hfilt2 := filter_causal front dc suf2 hs2
  have hent1 := find?_entry front dc suf1 hs1
  have hent2 := find?_entry front dc suf2 hs2
  unfold simulateDay
  rw [hfind1, hfind2]
  simp only []
  rw [hfilt1, hfilt2, getLastD_append_single, hent1, hent2]
  rcases hana : simulateDayAnalyze cfg
      ((front ++ [dc]).filter (killzoneHour decisionHour))
      (sliceLastN (htf4h.filter
        (fun c => decide (c.timestamp + 4 * 60 * 60 * 1000 ≤ dc.timestamp))) 100)
      (sliceLastN (htf1d.filter
        (fun c => decide (utcDayNumber c.timestamp < utcDayNumber dc.timestamp))) 60)
      ((smt.filter (fun c => decide (c.timestamp ≤ dc.timestamp))).filter
        (killzoneHour decisionHour))
    with e | v <;> rw [hana]
  · rfl
  · rcases v with reason | dec
    · rfl
    · cases hsu1 : suf1.head? with
      | none =>
        cases hsu2 : suf2.head? with
        | some b =>
          rw [hsu1, hsu2] at hopen
          simp only [Option.map] at hopen
          exact Option.noConfusion hopen
        | none => rfl
      | some a =>
        cases hsu2 : suf2.head? with
        | none =>
          rw [hsu1, hsu2] at hopen
          simp only [Option.map] at hopen
          exact Option.noConfusion hopen
        | some b =>
          rw [hsu1, hsu2] at hopen
          simp only [Option.map] at hopen
          have hab := Option.some.inj hopen
          exact congrArg (fun q =>
            Except.ok (true, some dec.expectedDirection, some q)) hab

/-- One causal candle at 12:00 UTC on 2025-01-06. -/
def frontC1 : List Candle := [mkCandle 1736164800000 100 101 99 100]

/-- The decision candle at 15:00 UTC. -/
def dcC1 : Candle := mkCandle 1736175600000 101 102 100 101

/-- A post-cursor candle at 16:00 UTC. -/
def suf1C1 : List Candle := [mkCandle 1736179200000 102 110 95 108]

/-- The same post-cursor candle mutated everywhere except its open. -/
def suf2C1 : List Candle := [mkCandle 1736179200000 102 150 50 60]

/-- Witness for C1: with a concrete sorted day series, mutating the
candle after the cursor (same open, different high/low/close) leaves the
decision triple unchanged. -/
theorem simulateDay_no_lookahead_witness :
    (∀ c ∈ frontC1, utcHour c.timestamp < 15) ∧
    15 ≤ utcHour dcC1.timestamp ∧
    ((suf1C1.head?).map Candle.opn = (suf2C1.head?).map Candle.opn) ∧
    suf1C1 ≠ suf2C1 ∧
    ((simulateDay sampleConfig (frontC1 ++ dcC1 :: suf1C1) [] [] [] 15).map
      DayResult.decisionTriple =
     (simulateDay sampleConfig (frontC1 ++ dcC1 :: suf2C1) [] [] [] 15).map
      DayResult.decisionTriple) :=
  ⟨by decide, by decide, by decide, by decide,
   simulateDay_no_lookahead sampleConfig frontC1 dcC1 suf1C1 suf2C1 [] [] [] 15
     (by decide) (by decide)
     (by norm_num [frontC1, dcC1, suf1C1, mkCandle, List.chain'_cons])
     (by norm_num [frontC1, dcC1, suf2C1, mkCandle, List.chain'_cons])
     (by decide)⟩
